import Mathlib

/-!
Verification development for the `xSNUpdateSetBuilder` script include
(`src/xSNUpdateSetBuilder/global.xSNUpdateSetBuilder.js`), a ServiceNow
update-set builder.  The JavaScript is shallowly embedded: the record store
(GlideRecord) is a list of rows, the builder object is an explicit state,
ECMAScript string coercion of nil GlideElements is made explicit, and
`throw` is modelled with `Except` whose error also carries the builder
state at the moment of the throw (the JS object survives an exception).

Modelling conventions, in the order the source uses them:
* a nil-able script value (`null`/`undefined`/empty GlideElement) is an
  `Option String`; `"" + x` is `jsStr`, `JSUtil.nil` / `gs.nil` is `jsNil`;
* the captured-object map `this._capturedObjectMap` (a plain JS object used
  as a dictionary) is an insertion-ordered association list with unique
  keys; JS property-lookup truthiness (`if (!capturedObject)`) is
  `jsTruthy`, which is false both for an absent key and for a key whose
  stored value is the empty string, exactly as in ECMAScript (keys
  inherited from `Object.prototype` are outside the model);
* `for (var k in obj)` iterates in insertion order (string keys);
* host queries (`addQuery`/`addNullQuery`/`addNotNullQuery` + `query()`)
  filter the row list in order; `gr.get` takes the first match;
  `getRefRecord()` resolves a reference field by its sys_id anywhere in the
  store (ServiceNow sys_ids are instance-unique) and yields `none` for a
  nil or dangling reference, in which case recording it is a no-op.
-/

/-- `"" + x` on a nil-able script value: a nil GlideElement (or `null`)
stringifies to the empty string. -/
def jsStr : Option String → String
  | none => ""
  | some s => s

/-- `JSUtil.nil` / `gs.nil`: true for `null`, `undefined` and `""`. -/
def jsNil (o : Option String) : Bool := jsStr o == ""

/-- JS truthiness of a property-lookup result: `undefined` (absent key) and
the empty string are falsy, every other string is truthy. -/
def jsTruthy : Option String → Bool
  | none => false
  | some s => s != ""

/-- Lookup in a JS-object-as-dictionary, modelled as an association list. -/
def mapGet : List (String × String) → String → Option String
  | [], _ => none
  | (k, v) :: rest, key => if k = key then some v else mapGet rest key

/-- Property assignment `obj[key] = val`: overwrites in place when the key
exists (keeping its insertion position), otherwise appends. -/
def mapSet : List (String × String) → String → String → List (String × String)
  | [], key, val => [(key, val)]
  | (k, v) :: rest, key, val =>
    if k = key then (k, val) :: rest else (k, v) :: mapSet rest key val

/-- A row of the external record store: its table (`getTableName()`), its
`sys_id` element, and the remaining named fields. -/
structure Row where
  tbl : String
  sys_id : Option String
  fields : List (String × String)
deriving DecidableEq

/-- Field access `row.f` for a field other than `sys_id`: `none` models an
absent or empty element. An empty-string stored value is normalised to the
same observable behaviour as an absent one by `jsStr`/`jsNil`/`jsTruthy`. -/
def getF (r : Row) (f : String) : Option String := mapGet r.fields f

/-- The mutable state of one `xSNUpdateSetBuilder` instance:
`_capturedObjectMap` (sys_id -> table name) and `_capturedObjectCount`. -/
structure BuilderState where
  capturedObjectMap : List (String × String)
  capturedObjectCount : Nat
deriving DecidableEq

/-- The state set up by the constructor (`initialize`). -/
def initialState : BuilderState := ⟨[], 0⟩

/-- `getObjectCount()`. -/
def getObjectCount (st : BuilderState) : Nat := st.capturedObjectCount

/-- `_recordObject(gr)`: a nil `gr` returns immediately; otherwise the
object is keyed by `"" + gr.sys_id` and, when the existing map entry is
falsy, the table name is stored and the counter incremented. -/
def recordObject (st : BuilderState) (gr : Option Row) : BuilderState :=
  match gr with
  | none => st
  | some r =>
    let sys_id := jsStr r.sys_id
    let capturedObject := mapGet st.capturedObjectMap sys_id
    if jsTruthy capturedObject then st
    else
      { capturedObjectMap := mapSet st.capturedObjectMap sys_id r.tbl,
        capturedObjectCount := st.capturedObjectCount + 1 }

/-- `_flushObjectCache()`: resets the map and the counter. -/
def flushObjectCache (_st : BuilderState) : BuilderState := ⟨[], 0⟩

/-- One builder-cache operation, for stating reachability invariants over
`_recordObject` / `_flushObjectCache` sequences. -/
inductive BuilderOp where
  | record (gr : Option Row)
  | flush
deriving DecidableEq

/-- Apply one operation to the builder state. -/
def applyOp (st : BuilderState) : BuilderOp → BuilderState
  | BuilderOp.record gr => recordObject st gr
  | BuilderOp.flush => flushObjectCache st

/-- Run a sequence of cache operations from a freshly constructed builder. -/
def runOps (ops : List BuilderOp) : BuilderState := ops.foldl applyOp initialState

/-- An operation never passes `_recordObject` a record whose
`getTableName()` is the empty string. -/
def opHasRealTable : BuilderOp → Bool
  | BuilderOp.record (some r) => r.tbl != ""
  | _ => true

/-- One query condition on a GlideRecord, as built by `addQuery` (field =
value), `addNotNullQuery` and `addNullQuery`. -/
inductive Cond where
  | eq (field value : String)
  | notNull (field : String)
  | isNull (field : String)
deriving DecidableEq

/-- Whether a row satisfies one condition (field comparison is on the
stringified element, as the host does for string-valued queries). -/
def matchesCond (r : Row) : Cond → Bool
  | Cond.eq f v => jsStr (getF r f) == v
  | Cond.notNull f => !(jsNil (getF r f))
  | Cond.isNull f => jsNil (getF r f)

/-- `query()` on a GlideRecord for table `tbl` with the accumulated
conditions: the matching rows of the store, in store order. -/
def queryStore (store : List Row) (tbl : String) (conds : List Cond) : List Row :=
  store.filter (fun r => r.tbl == tbl && conds.all (matchesCond r))

/-- `gr.get(sysId)`: first row of the table with the given sys_id. -/
def grGet (store : List Row) (tbl : String) (sysId : String) : Option Row :=
  store.find? (fun r => r.tbl == tbl && jsStr r.sys_id == sysId)

/-- `gr.get(field, value)`: first row of the table whose field matches. -/
def grGetByField (store : List Row) (tbl field value : String) : Option Row :=
  store.find? (fun r => r.tbl == tbl && jsStr (getF r f') == value)
where f' := field

/-- `element.getRefRecord()`: the row the reference field points at.
`none` models both a nil reference and a dangling one (the host would hand
back an unloaded GlideRecord whose sys_id stringifies to empty). -/
def getRefRecord (store : List Row) (r : Row) (f : String) : Option Row :=
  if jsNil (getF r f) then none
  else store.find? (fun q => jsStr q.sys_id == jsStr (getF r f))

/-- `"" + ref.sys_id` for a possibly-invalid dereferenced record. -/
def refSysId (o : Option Row) : String :=
  match o with
  | none => ""
  | some r => jsStr r.sys_id

/-- `"" + ref.f` for a possibly-invalid dereferenced record. -/
def refStr (o : Option Row) (f : String) : String :=
  match o with
  | none => ""
  | some r => jsStr (getF r f)

/-- `getEncodedQuery()` for the accumulated conditions (the standard
ServiceNow encoding, used only inside error messages). -/
def encodeQuery (conds : List Cond) : String :=
  String.intercalate "^" (conds.map (fun c =>
    match c with
    | Cond.eq f v => f ++ "=" ++ v
    | Cond.notNull f => f ++ "ISNOTEMPTY"
    | Cond.isNull f => f ++ "ISEMPTY"))

/-- A GlideRecord with query conditions pre-loaded, as passed to the
internal capture helpers. -/
structure GRQuery where
  tbl : String
  conds : List Cond
deriving DecidableEq

/- The `_TABLES` enum of the script include (the members this development
uses). -/
namespace TABLES

def SYS_SCOPE : String := "sys_scope"

def UPDATE_SET : String := "sys_update_set"

def CATALOG_ITEM : String := "sc_cat_item"

def CATALOG_ITEM_VARIABLE : String := "item_option_new"

def CATALOG_ITEM_VARIABLE_SET_M2M : String := "io_set_item"

def CATALOG_ITEM_VARIABLE_QUESTION_CHOICE : String := "question_choice"

def CATALOG_ITEM_UI_POLICY : String := "catalog_ui_policy"

def CATALOG_ITEM_UI_POLICY_ACTION : String := "catalog_ui_policy_action"

def CATALOG_ITEM_CLIENT_SCRIPT : String := "catalog_script_client"

def SYS_APPLICATION : String := "sys_app"

def SYS_PROPERTIES : String := "sys_properties"

def SYS_PROPERTIES_CATEGORY : String := "sys_properties_category"

def SYS_PROPERTIES_CATEGORY_ASSOC : String := "sys_properties_category_m2m"

def SYS_DB_OBJECT : String := "sys_db_object"

def SYS_DICTIONARY : String := "sys_dictionary"

def UI_VIEW : String := "sys_ui_view"

def SYS_EVENT : String := "sysevent_register"

def LIST_LAYOUT : String := "sys_ui_list"

def LIST_CONTROL : String := "sys_ui_list_control"

def FORM : String := "sys_ui_form"

def FORM_SECTION : String := "sys_ui_form_section"

def FORM_RELATED_LIST : String := "sys_ui_related_list"

def SYS_DOCUMENTATION : String := "sys_documentation"

def SYS_CHOICE : String := "sys_choice"

def SYS_SECURITY_ACL : String := "sys_security_acl"

def SYS_SECURITY_ACL_ROLE : String := "sys_security_acl_role"

def SYS_DICTIONARY_OVERRIDE : String := "sys_dictionary_override"

def SYS_SCRIPT : String := "sys_script"

def SYS_SCRIPT_CLIENT : String := "sys_script_client"

def SCRIPT_INCLUDE : String := "sys_script_include"

def UI_ACTION : String := "sys_ui_action"

def UI_POLICY : String := "sys_ui_policy"

def UI_POLICY_ACTION : String := "sys_ui_policy_action"

def DATA_POLICY : String := "sys_data_policy2"

def DATA_POLICY_RULE : String := "sys_data_policy_rule"

def UI_STYLE : String := "sys_ui_style"

def TABLE_VIEW_RULE : String := "sysrule_view"

def APPLICATION_MENU : String := "sys_app_application"

def APPLICATION_MENU_MODULE : String := "sys_app_module"

def DATABASE_VIEW : String := "sys_db_view"

def DATABASE_VIEW_TABLE : String := "sys_db_view_table"

def DATABASE_VIEW_TABLE_FIELD : String := "sys_db_view_table_field"

def ROLE : String := "sys_user_role"

def TABLE_NUMBER : String := "sys_number"

def ARCHIVE_RULE : String := "sys_archive"

def ARCHIVE_RULE_RELATED : String := "sys_archive_related"

end TABLES

/-- Result of a capture call: either the updated builder state, or a thrown
message together with the builder state at the moment of the throw (the
builder object survives the exception). -/
abbrev Cap := Except (String × BuilderState) BuilderState

/-- `_captureObjectsFromGRQuery(gr)`: throws on a nil `gr`, otherwise runs
the query and records every result row. -/
def captureObjectsFromGRQuery (store : List Row) (gr : Option GRQuery)
    (st : BuilderState) : Cap :=
  match gr with
  | none =>
    Except.error ("xSNUpdateSetBuilder._captureObjectsFromGRQuery: parameter \x27gr\x27 is nil!", st)
  | some q =>
    Except.ok ((queryStore store q.tbl q.conds).foldl (fun s r => recordObject s (some r)) st)

/-- `_captureUniqueGRObject(gr, callingMethod)`: throws on a nil `gr`; runs
the query; records the row and hands it back when exactly one matches;
throws the not-found message on zero matches and the ambiguous-result
message on more than one.  The returned row models the cursor the caller
keeps using after the call. -/
def captureUniqueGRObject (store : List Row) (gr : Option GRQuery)
    (callingMethod : String) (st : BuilderState) :
    Except (String × BuilderState) (BuilderState × Row) :=
  match gr with
  | none =>
    Except.error ("xSNUpdateSetBuilder._captureUniqueGRObject: parameter \x27gr\x27 is nil!", st)
  | some q =>
    match queryStore store q.tbl q.conds with
    | [r] => Except.ok (recordObject st (some r), r)
    | [] =>
      Except.error (callingMethod ++ ": No " ++ q.tbl ++ " found for query \x27"
        ++ encodeQuery q.conds ++ "\x27", st)
    | rs =>
      Except.error (callingMethod ++ ": found multiple (" ++ toString rs.length ++ ") "
        ++ q.tbl ++ " for provided query!", st)

/-- `_captureUIView(sys_id)`: throws on a nil sys_id; does nothing when the
map already holds a truthy entry for it; otherwise loads the UI view
(throwing when absent) and records it. -/
def captureUIView (store : List Row) (sysId : Option String) (st : BuilderState) : Cap :=
  if jsNil sysId then
    Except.error ("xSNUpdateSetBuilder.captureUIViewsForTable: parameter \x27sys_id\x27 is nil!", st)
  else
    let sid := jsStr sysId
    if jsTruthy (mapGet st.capturedObjectMap sid) then Except.ok st
    else
      match grGet store TABLES.UI_VIEW sid with
      | none =>
        Except.error ("xSNUpdateSetBuilder.captureUIViewsForTable: No UI View found for sys_id \x27"
          ++ sid ++ "\x27", st)
      | some uiv => Except.ok (recordObject st (some uiv))

/-- `captureTableNumber(tblName)`. -/
def captureTableNumber (store : List Row) (tblName : Option String) (st : BuilderState) : Cap :=
  if jsNil tblName then
    Except.error ("xSNUpdateSetBuilder.captureTableNumber: parameter \x27tblName\x27 is nil!", st)
  else
    let tbl := jsStr tblName
    match grGetByField store TABLES.SYS_DB_OBJECT "name" tbl with
    | none =>
      Except.error ("xSNUpdateSetBuilder.captureTableNumber: no table named \x27" ++ tbl ++ "\x27 found!", st)
    | some _ =>
      captureObjectsFromGRQuery store (some ⟨TABLES.TABLE_NUMBER, [Cond.eq "category" tbl]⟩) st

/-- `captureACLsForTable(tblName)`: table-level ACLs and their role
dependencies. -/
def captureACLsForTable (store : List Row) (tblName : Option String) (st : BuilderState) : Cap :=
  if jsNil tblName then
    Except.error ("xSNUpdateSetBuilder.captureACLsForTable: parameter \x27tblName\x27 is nil!", st)
  else
    let tbl := jsStr tblName
    if (queryStore store TABLES.SYS_DB_OBJECT [Cond.eq "name" tbl]).isEmpty then
      Except.error ("xSNUpdateSetBuilder.captureACLsForTable: no table named \x27" ++ tbl ++ "\x27 found!", st)
    else
      (queryStore store TABLES.SYS_SECURITY_ACL [Cond.eq "name" tbl]).foldlM
        (fun s acl =>
          captureObjectsFromGRQuery store
            (some ⟨TABLES.SYS_SECURITY_ACL_ROLE, [Cond.eq "sys_security_acl" (jsStr acl.sys_id)]⟩)
            (recordObject s (some acl)))
        st

/-- `captureACLsForTableAndField(tblName, fieldName)`: field-level ACLs and
their role dependencies. -/
def captureACLsForTableAndField (store : List Row) (tblName fieldName : Option String)
    (st : BuilderState) : Cap :=
  if jsNil tblName then
    Except.error ("xSNUpdateSetBuilder.captureACLsForTableAndField: parameter \x27tblName\x27 is nil!", st)
  else if jsNil fieldName then
    Except.error ("xSNUpdateSetBuilder.captureACLsForTableAndField: parameter \x27fieldName\x27 is nil!", st)
  else
    let tbl := jsStr tblName
    let fld := jsStr fieldName
    if (queryStore store TABLES.SYS_DB_OBJECT [Cond.eq "name" tbl]).isEmpty then
      Except.error ("xSNUpdateSetBuilder.captureACLsForTableAndField: no table named \x27"
        ++ tbl ++ "\x27 found!", st)
    else if (queryStore store TABLES.SYS_DICTIONARY
        [Cond.eq "name" tbl, Cond.eq "element" fld]).isEmpty then
      Except.error ("xSNUpdateSetBuilder.captureACLsForTableAndField: no field named \x27"
        ++ fld ++ "\x27 found on table \x27" ++ tbl ++ "\x27 found!", st)
    else
      (queryStore store TABLES.SYS_SECURITY_ACL [Cond.eq "name" (tbl ++ "." ++ fld)]).foldlM
        (fun s acl =>
          captureObjectsFromGRQuery store
            (some ⟨TABLES.SYS_SECURITY_ACL_ROLE, [Cond.eq "sys_security_acl" (jsStr acl.sys_id)]⟩)
            (recordObject s (some acl)))
        st

/-- `captureUIPolicesForTable(tblName)`: UI policies and their actions. -/
def captureUIPolicesForTable (store : List Row) (tblName : Option String)
    (st : BuilderState) : Cap :=
  if jsNil tblName then
    Except.error ("xSNUpdateSetBuilder.captureUIPolicesForTable: parameter \x27tblName\x27 is nil!", st)
  else
    let tbl := jsStr tblName
    if (queryStore store TABLES.SYS_DB_OBJECT [Cond.eq "name" tbl]).isEmpty then
      Except.error ("xSNUpdateSetBuilder.captureUIPolicesForTable: no table named \x27"
        ++ tbl ++ "\x27 found!", st)
    else
      (queryStore store TABLES.UI_POLICY [Cond.eq "table" tbl]).foldlM
        (fun s ui =>
          captureObjectsFromGRQuery store
            (some ⟨TABLES.UI_POLICY_ACTION, [Cond.eq "ui_policy" (jsStr ui.sys_id)]⟩)
            (recordObject s (some ui)))
        st

/-- `captureDataPolicesForTable(tblName)`: data policies and their rules. -/
def captureDataPolicesForTable (store : List Row) (tblName : Option String)
    (st : BuilderState) : Cap :=
  if jsNil tblName then
    Except.error ("xSNUpdateSetBuilder.captureDataPolicesForTable: parameter \x27tblName\x27 is nil!", st)
  else
    let tbl := jsStr tblName
    if (queryStore store TABLES.SYS_DB_OBJECT [Cond.eq "name" tbl]).isEmpty then
      Except.error ("xSNUpdateSetBuilder.captureDataPolicesForTable: no table named \x27"
        ++ tbl ++ "\x27 found!", st)
    else
      (queryStore store TABLES.DATA_POLICY [Cond.eq "model_table" tbl]).foldlM
        (fun s dp =>
          captureObjectsFromGRQuery store
            (some ⟨TABLES.DATA_POLICY_RULE, [Cond.eq "sys_data_policy" (jsStr dp.sys_id)]⟩)
            (recordObject s (some dp)))
        st

/-- `captureTableFieldAndAssociatedObjects(tblName, fldName)`: the field
dictionary record, labels, choices, field-level ACLs and overrides. -/
def captureTableFieldAndAssociatedObjects (store : List Row) (tblName fldName : Option String)
    (st : BuilderState) : Cap :=
  if jsNil tblName then
    Except.error ("xSNUpdateSetBuilder.captureTableFieldAndAssociatedObjects: parameter \x27tblName\x27 is nil!", st)
  else if jsNil fldName then
    Except.error ("xSNUpdateSetBuilder.captureTableFieldAndAssociatedObjects: parameter \x27fldName\x27 is nil!", st)
  else
    let tbl := jsStr tblName
    let fld := jsStr fldName
    match queryStore store TABLES.SYS_DICTIONARY [Cond.eq "name" tbl, Cond.eq "element" fld] with
    | [] =>
      Except.error ("xSNUpdateSetBuilder.captureTableFieldAndAssociatedObjects: No field named \x27"
        ++ fld ++ "\x27 on table \x27" ++ tbl ++ "\x27 found!", st)
    | dict :: _ => do
      let st := recordObject st (some dict)
      let st ← captureObjectsFromGRQuery store
        (some ⟨TABLES.SYS_DOCUMENTATION, [Cond.eq "name" tbl, Cond.eq "element" fld]⟩) st
      let st ← captureObjectsFromGRQuery store
        (some ⟨TABLES.SYS_CHOICE, [Cond.eq "name" tbl, Cond.eq "element" fld]⟩) st
      let st ← captureACLsForTableAndField store (some tbl) (some fld) st
      captureObjectsFromGRQuery store
        (some ⟨TABLES.SYS_DICTIONARY_OVERRIDE, [Cond.eq "name" tbl, Cond.eq "element" fld]⟩) st

/-- `captureListLayoutsForTable(tblName)`: list layouts for non-report,
non-personalised, non-relationship views (capturing the dependent UI view
first), then the list controls. -/
def captureListLayoutsForTable (store : List Row) (tblName : Option String)
    (st : BuilderState) : Cap :=
  if jsNil tblName then
    Except.error ("xSNUpdateSetBuilder.captureListLayoutsForTable: parameter \x27tblName\x27 is nil!", st)
  else
    let tbl := jsStr tblName
    do
    let st ← (queryStore store TABLES.LIST_LAYOUT
        [Cond.eq "name" tbl, Cond.notNull "view", Cond.isNull "sys_user",
         Cond.isNull "relationship"]).foldlM
      (fun s lst =>
        let vw := getRefRecord store lst "view"
        if ((refStr vw "name").toUpper.startsWith "RPT") then Except.ok s
        else do
          let s ← captureUIView store (some (refSysId vw)) s
          Except.ok (recordObject s (some lst)))
      st
    Except.ok ((queryStore store TABLES.LIST_CONTROL [Cond.eq "name" tbl]).foldl
      (fun s lc => recordObject s (some lc)) st)

/-- `captureFormLayoutsForTable(tblName)`: per non-report view, the form
record, the referenced form sections, and the related-list record if one
exists (its absence is only logged). -/
def captureFormLayoutsForTable (store : List Row) (tblName : Option String)
    (st : BuilderState) : Cap :=
  if jsNil tblName then
    Except.error ("xSNUpdateSetBuilder.captureFormLayoutsForTable: parameter \x27tblName\x27 is nil!", st)
  else
    let tbl := jsStr tblName
    (queryStore store TABLES.FORM [Cond.eq "name" tbl, Cond.notNull "view"]).foldlM
      (fun s frm =>
        let vw := getRefRecord store frm "view"
        let vwSysId := refSysId vw
        if ((refStr vw "name").toUpper.startsWith "RPT") then Except.ok s
        else
          let s := recordObject s (some frm)
          let s := (queryStore store TABLES.FORM_SECTION
              [Cond.eq "sys_ui_form" (jsStr frm.sys_id), Cond.notNull "sys_ui_section"]).foldl
            (fun s2 frs1 => recordObject s2 (getRefRecord store frs1 "sys_ui_section")) s
          match queryStore store TABLES.FORM_RELATED_LIST
              [Cond.eq "name" tbl, Cond.eq "view" vwSysId] with
          | rel :: _ => Except.ok (recordObject s (some rel))
          | [] => Except.ok s)
      st

/-- `captureTableWithRelatedObjects(tblName)`: the table record and every
category of related artifact, in source order. -/
def captureTableWithRelatedObjects (store : List Row) (tblName : Option String)
    (st : BuilderState) : Cap :=
  if jsNil tblName then
    Except.error ("xSNUpdateSetBuilder.captureTableWithRelatedObjects: parameter \x27tblName\x27 is nil!", st)
  else
    let tbl := jsStr tblName
    match grGetByField store TABLES.SYS_DB_OBJECT "name" tbl with
    | none =>
      Except.error ("xSNUpdateSetBuilder.captureTableWithRelatedObjects: no table named \x27"
        ++ tbl ++ "\x27 found!", st)
    | some tblGR => do
      let st := recordObject st (some tblGR)
      let st ← captureObjectsFromGRQuery store
        (some ⟨TABLES.SYS_DICTIONARY, [Cond.eq "name" tbl, Cond.isNull "element"]⟩) st
      let st ← captureTableNumber store (some tbl) st
      let st ← captureACLsForTable store (some tbl) st
      let st ← captureObjectsFromGRQuery store
        (some ⟨TABLES.SYS_SCRIPT_CLIENT, [Cond.eq "table" tbl]⟩) st
      let st ← captureObjectsFromGRQuery store
        (some ⟨TABLES.SYS_SCRIPT, [Cond.eq "collection" tbl]⟩) st
      let st ← captureObjectsFromGRQuery store
        (some ⟨TABLES.UI_ACTION, [Cond.eq "table" tbl]⟩) st
      let st ← captureUIPolicesForTable store (some tbl) st
      let st ← captureDataPolicesForTable store (some tbl) st
      let st ← captureObjectsFromGRQuery store
        (some ⟨TABLES.UI_STYLE, [Cond.eq "name" tbl]⟩) st
      let st ← captureObjectsFromGRQuery store
        (some ⟨TABLES.TABLE_VIEW_RULE, [Cond.eq "table" tbl]⟩) st
      let st ← (queryStore store TABLES.SYS_DICTIONARY
          [Cond.notNull "element", Cond.eq "name" tbl]).foldlM
        (fun s d =>
          captureTableFieldAndAssociatedObjects store (some tbl)
            (some (jsStr (getF d "element"))) s)
        st
      let st ← captureFormLayoutsForTable store (some tbl) st
      captureListLayoutsForTable store (some tbl) st

/-- `_getCurrentScopeName()`: maps the host sentinel "rhino.global" to
"global", otherwise passes the raw scope name through. -/
def getCurrentScopeName (raw : Option String) : Option String :=
  match raw with
  | some s => if s == "rhino.global" then some "global" else some s
  | none => none

/-- `_getCurrentScopeGR()`: the sys_scope row of the session scope. -/
def getCurrentScopeGR (store : List Row) (raw : Option String) : Except String Row :=
  let sn := getCurrentScopeName raw
  if jsNil sn then
    Except.error "xSNUpdateSetBuilder._getCurrentScopeGR: No scope name found!"
  else
    match grGetByField store TABLES.SYS_SCOPE "name" (jsStr sn) with
    | none =>
      Except.error ("xSNUpdateSetBuilder._getCurrentScopeGR: No scope found with name \x27"
        ++ jsStr sn ++ "\x27")
    | some scp => Except.ok scp

/-- `captureScriptIncludeByName(scrName)`: unique lookup on the scoped API
name. -/
def captureScriptIncludeByName (store : List Row) (rawScope : Option String)
    (scrName : Option String) (st : BuilderState) : Cap :=
  if jsNil scrName then
    Except.error ("xSNUpdateSetBuilder.captureScriptIncludeByName: parameter \x27scrName\x27 is nil!", st)
  else
    let apiName := jsStr (getCurrentScopeName rawScope) ++ "." ++ jsStr scrName
    match captureUniqueGRObject store (some ⟨TABLES.SCRIPT_INCLUDE, [Cond.eq "api_name" apiName]⟩)
        "xSNUpdateSetBuilder.captureScriptIncludeByName" st with
    | Except.error e => Except.error e
    | Except.ok (st2, _) => Except.ok st2

/-- `captureUserRole(roleName)`: unique lookup on scope + role name. -/
def captureUserRole (store : List Row) (rawScope : Option String)
    (roleName : Option String) (st : BuilderState) : Cap :=
  if jsNil roleName then
    Except.error ("xSNUpdateSetBuilder.captureUserRole: parameter \x27roleName\x27 is nil!", st)
  else
    match captureUniqueGRObject store
        (some ⟨TABLES.ROLE, [Cond.eq "sys_scope" (jsStr (getCurrentScopeName rawScope)),
                             Cond.eq "name" (jsStr roleName)]⟩)
        "xSNUpdateSetBuilder.captureUserRole" st with
    | Except.error e => Except.error e
    | Except.ok (st2, _) => Except.ok st2

/-- `captureApplicationRecord(appName)`: unique lookup on the application
name (the nil-parameter message of the source names captureTableNumber,
a copy-and-paste slip kept verbatim). -/
def captureApplicationRecord (store : List Row) (appName : Option String)
    (st : BuilderState) : Cap :=
  if jsNil appName then
    Except.error ("xSNUpdateSetBuilder.captureTableNumber: parameter \x27appName\x27 is nil!", st)
  else
    match captureUniqueGRObject store
        (some ⟨TABLES.SYS_APPLICATION, [Cond.eq "name" (jsStr appName)]⟩)
        "xSNUpdateSetBuilder.captureApplicationRecord" st with
    | Except.error e => Except.error e
    | Except.ok (st2, _) => Except.ok st2

/-- `captureSystemProperty(propName)`: unique lookup on the property name. -/
def captureSystemProperty (store : List Row) (propName : Option String)
    (st : BuilderState) : Cap :=
  if jsNil propName then
    Except.error ("xSNUpdateSetBuilder.captureSystemProperty: parameter \x27propName\x27 is nil!", st)
  else
    match captureUniqueGRObject store
        (some ⟨TABLES.SYS_PROPERTIES, [Cond.eq "name" (jsStr propName)]⟩)
        "xSNUpdateSetBuilder.captureSystemProperty" st with
    | Except.error e => Except.error e
    | Except.ok (st2, _) => Except.ok st2

/-- `captureEventRegistration(evtName)`: unique lookup on the event name. -/
def captureEventRegistration (store : List Row) (evtName : Option String)
    (st : BuilderState) : Cap :=
  if jsNil evtName then
    Except.error ("xSNUpdateSetBuilder.captureEventRegistration: parameter \x27evtName\x27 is nil!", st)
  else
    match captureUniqueGRObject store
        (some ⟨TABLES.SYS_EVENT, [Cond.eq "event_name" (jsStr evtName)]⟩)
        "xSNUpdateSetBuilder.captureEventRegistration" st with
    | Except.error e => Except.error e
    | Except.ok (st2, _) => Except.ok st2

/-- `captureSystemPropertyCategoryWithAssociations(catName)`: unique lookup
of the category, then each associated property (by its name) followed by
the association record. -/
def captureSystemPropertyCategoryWithAssociations (store : List Row)
    (catName : Option String) (st : BuilderState) : Cap :=
  if jsNil catName then
    Except.error ("captureSystemPropertyCategory: parameter \x27catName\x27 is nil!", st)
  else
    match captureUniqueGRObject store
        (some ⟨TABLES.SYS_PROPERTIES_CATEGORY, [Cond.eq "name" (jsStr catName)]⟩)
        "xSNUpdateSetBuilder.captureSystemPropertyCategoryWithAssociations" st with
    | Except.error e => Except.error e
    | Except.ok (st1, cat) =>
      (queryStore store TABLES.SYS_PROPERTIES_CATEGORY_ASSOC
          [Cond.eq "category" (jsStr cat.sys_id), Cond.notNull "property"]).foldlM
        (fun s assoc => do
          let prop := getRefRecord store assoc "property"
          let s ← captureSystemProperty store (some (refStr prop "name")) s
          Except.ok (recordObject s (some assoc)))
        st1

/-- `captureCatalogUIPolicy(catUIPolicySysId)`: the policy record and its
child UI policy actions. -/
def captureCatalogUIPolicy (store : List Row) (catUIPolicySysId : Option String)
    (st : BuilderState) : Cap :=
  if jsNil catUIPolicySysId then
    Except.error ("xSNUpdateSetBuilder.captureCatalogUIPolicy: parameter \x27catUIPolicySysId\x27 is nil!", st)
  else
    match grGet store TABLES.CATALOG_ITEM_UI_POLICY (jsStr catUIPolicySysId) with
    | none =>
      Except.error ("xSNUpdateSetBuilder.captureCatalogUIPolicy: no Catalog UI policy found for sys_id \x27"
        ++ jsStr catUIPolicySysId ++ "\x27!", st)
    | some pol =>
      captureObjectsFromGRQuery store
        (some ⟨TABLES.CATALOG_ITEM_UI_POLICY_ACTION,
               [Cond.eq "ui_policy" (jsStr catUIPolicySysId)]⟩)
        (recordObject st (some pol))

/-- `captureServiceCatalogVariable(varSysId)`: records the variable and
then branches on `"" + varGR.type`: custom types record the linked macro /
summary macro / SP widget / macroponent; choice types record the question
choices; the UI Page type records the linked UI page; any other type
records nothing further. -/
def captureServiceCatalogVariable (store : List Row) (varSysId : Option String)
    (st : BuilderState) : Cap :=
  if jsNil varSysId then
    Except.error ("xSNUpdateSetBuilder.captureServiceCatalogVariable: parameter \x27varSysId\x27 is nil!", st)
  else
    match grGet store TABLES.CATALOG_ITEM_VARIABLE (jsStr varSysId) with
    | none =>
      Except.error ("xSNUpdateSetBuilder.captureServiceCatalogVariable: No Catalog Variable found for sys_id \x27"
        ++ jsStr varSysId ++ "\x27!", st)
    | some varGR =>
      let st := recordObject st (some varGR)
      let t := jsStr (getF varGR "type")
      if t == "14" || t == "17" then
        let st := if jsNil (getF varGR "macro") then st
          else recordObject st (getRefRecord store varGR "macro")
        let st := if jsNil (getF varGR "summary_macro") then st
          else recordObject st (getRefRecord store varGR "summary_macro")
        let st := if jsNil (getF varGR "sp_widget") then st
          else recordObject st (getRefRecord store varGR "sp_widget")
        let st := if jsNil (getF varGR "macroponent") then st
          else recordObject st (getRefRecord store varGR "macroponent")
        Except.ok st
      else if t == "3" || t == "5" then
        captureObjectsFromGRQuery store
          (some ⟨TABLES.CATALOG_ITEM_VARIABLE_QUESTION_CHOICE,
                 [Cond.eq "question" (jsStr varGR.sys_id)]⟩) st
      else if t == "15" then
        Except.ok (if jsNil (getF varGR "ui_page") then st
          else recordObject st (getRefRecord store varGR "ui_page"))
      else Except.ok st

/-- `captureServiceCatalogItem(catSysId)`: the item (rejecting subclasses),
its variables, its variable sets with their variables / catalog UI policies
/ catalog client scripts, then the item-level catalog UI policies and
catalog client scripts. -/
def captureServiceCatalogItem (store : List Row) (catSysId : Option String)
    (st : BuilderState) : Cap :=
  if jsNil catSysId then
    Except.error ("xSNUpdateSetBuilder.captureServiceCatalogItem: parameter \x27catSysId\x27 is nil!", st)
  else
    match grGet store TABLES.CATALOG_ITEM (jsStr catSysId) with
    | none =>
      Except.error ("xSNUpdateSetBuilder.captureServiceCatalogItem: No Catalog Item found for sys_id \x27"
        ++ jsStr catSysId ++ "\x27!", st)
    | some catItemGR =>
      if jsStr (getF catItemGR "sys_class_name") != TABLES.CATALOG_ITEM then
        Except.error ("xSNUpdateSetBuilder.captureServiceCatalogItem: Catalog Item for sys_id \x27"
          ++ jsStr catSysId ++ "\x27 is a \x27" ++ jsStr (getF catItemGR "sys_class_name")
          ++ "\x27; Catalog Item subclasses are not supported by this utility", st)
      else do
        let st := recordObject st (some catItemGR)
        let st ← (queryStore store TABLES.CATALOG_ITEM_VARIABLE
            [Cond.eq "cat_item" (jsStr catSysId)]).foldlM
          (fun s v => captureServiceCatalogVariable store (some (jsStr v.sys_id)) s) st
        let st ← (queryStore store TABLES.CATALOG_ITEM_VARIABLE_SET_M2M
            [Cond.eq "sc_cat_item" (jsStr catSysId), Cond.notNull "variable_set"]).foldlM
          (fun s m2m => do
            let s := recordObject s (some m2m)
            let varSet := getRefRecord store m2m "variable_set"
            let s := match varSet with
              | some vs => recordObject s (some vs)
              | none => s
            let s ← (queryStore store TABLES.CATALOG_ITEM_VARIABLE
                [Cond.eq "variable_set" (refSysId varSet)]).foldlM
              (fun s2 v => captureServiceCatalogVariable store (some (jsStr v.sys_id)) s2) s
            let s ← (queryStore store TABLES.CATALOG_ITEM_UI_POLICY
                [Cond.eq "variable_set" (refSysId varSet), Cond.eq "applies_to" "set"]).foldlM
              (fun s2 p => captureCatalogUIPolicy store (some (jsStr p.sys_id)) s2) s
            captureObjectsFromGRQuery store
              (some ⟨TABLES.CATALOG_ITEM_CLIENT_SCRIPT,
                     [Cond.eq "variable_set" (refSysId varSet), Cond.eq "applies_to" "set"]⟩) s)
          st
        let st ← (queryStore store TABLES.CATALOG_ITEM_UI_POLICY
            [Cond.eq "catalog_item" (jsStr catSysId), Cond.eq "applies_to" "item"]).foldlM
          (fun s p => captureCatalogUIPolicy store (some (jsStr p.sys_id)) s) st
        captureObjectsFromGRQuery store
          (some ⟨TABLES.CATALOG_ITEM_CLIENT_SCRIPT,
                 [Cond.eq "cat_item" (jsStr catSysId), Cond.eq "applies_to" "item"]⟩) st

/-- `captureDatabaseView(vName)`: the view, its form/list layouts, its view
tables and their view fields. -/
def captureDatabaseView (store : List Row) (vName : Option String)
    (st : BuilderState) : Cap :=
  if jsNil vName then
    Except.error ("xSNUpdateSetBuilder.captureDatabaseView: parameter \x27vName\x27 is nil!", st)
  else
    let v := jsStr vName
    match queryStore store TABLES.DATABASE_VIEW [Cond.eq "name" v] with
    | [] =>
      Except.error ("xSNUpdateSetBuilder.captureDatabaseView: no DB view named \x27"
        ++ v ++ "\x27 found!\x27", st)
    | vw :: _ => do
      let st := recordObject st (some vw)
      let st ← captureFormLayoutsForTable store (some v) st
      let st ← captureListLayoutsForTable store (some v) st
      Except.ok ((queryStore store TABLES.DATABASE_VIEW_TABLE
          [Cond.eq "view" (jsStr vw.sys_id)]).foldl
        (fun s tbl =>
          let s := recordObject s (some tbl)
          (queryStore store TABLES.DATABASE_VIEW_TABLE_FIELD
              [Cond.eq "view_table" (jsStr tbl.sys_id)]).foldl
            (fun s2 fld => recordObject s2 (some fld)) s)
        st)

/-- `captureApplicationMenuAndModules(menuSysId)`: the menu and its
modules. -/
def captureApplicationMenuAndModules (store : List Row) (menuSysId : Option String)
    (st : BuilderState) : Cap :=
  if jsNil menuSysId then
    Except.error ("xSNUpdateSetBuilder.captureApplicationMenuAndModules: parameter \x27menuSysId\x27 is nil!", st)
  else
    match grGet store TABLES.APPLICATION_MENU (jsStr menuSysId) with
    | none =>
      Except.error ("xSNUpdateSetBuilder.captureApplicationMenuAndModules: no App menu found for sys_id \x27"
        ++ jsStr menuSysId ++ "\x27", st)
    | some appMenu =>
      captureObjectsFromGRQuery store
        (some ⟨TABLES.APPLICATION_MENU_MODULE, [Cond.eq "application" (jsStr appMenu.sys_id)]⟩)
        (recordObject st (some appMenu))

mutual

/-- `captureArchivalRule(ruleSysId)`, with an explicit recursion budget:
loads and records the archive rule, then walks its related records.  The JS
function is generally recursive; `none` means the budget was exhausted
before the call completed, so a result of `none` for every budget models a
call that never returns (unbounded recursion). -/
def captureArchivalRuleFuel : Nat → List Row → Option String → BuilderState → Option Cap
  | 0, _, _, _ => none
  | Nat.succ fuel, store, ruleSysId, st =>
    if jsNil ruleSysId then
      some (Except.error ("captureArchivalRule: parameter \x27ruleSysId\x27 is nil!", st))
    else
      let rid := jsStr ruleSysId
      match grGet store TABLES.ARCHIVE_RULE rid with
      | none =>
        some (Except.error ("xSNUpdateSetBuilder.captureArchivalRule: No archive rule found for sys_id "
          ++ rid, st))
      | some rul =>
        archRelLoop fuel store rid
          (queryStore store TABLES.ARCHIVE_RULE_RELATED [Cond.eq "archive_map" rid])
          (recordObject st (some rul))
termination_by n _ _ _ => (n, 0)

/-- The `while (rel.next())` loop of `captureArchivalRule`: records each
related record and recurses into a referenced table rule unless that child
is the rule currently being processed (the only circular-reference guard
the source has). -/
def archRelLoop : Nat → List Row → String → List Row → BuilderState → Option Cap
  | _, _, _, [], st => some (Except.ok st)
  | fuel, store, rid, rel :: rest, st =>
    let st := recordObject st (some rel)
    if jsNil (getF rel "table_archive_rule") then archRelLoop fuel store rid rest st
    else
      let chld := jsStr (getF rel "table_archive_rule")
      if chld != rid then
        match captureArchivalRuleFuel fuel store (some chld) st with
        | none => none
        | some (Except.error e) => some (Except.error e)
        | some (Except.ok st2) => archRelLoop fuel store rid rest st2
      else archRelLoop fuel store rid rest st
termination_by n _ _ l _ => (n, l.length + 1)

end

/-- The session-global environment `writeUpdateSet` runs against: the
record store, the raw scope name, the GlideUpdateSet "current update set"
slot, the sys_id the host would assign to a newly inserted update set, an
oracle telling which `GlideUpdateManager2.saveRecord` calls throw, and the
log of performed saves (sys_id, table). -/
structure World where
  store : List Row
  rawScopeName : Option String
  currentUpdateSet : String
  newUpdateSetSysId : String
  saveThrows : String → String → Bool
  saved : List (String × String)

/-- The `for (var sys_id in this._capturedObjectMap)` loop of
`writeUpdateSet`: each entry is re-resolved by `gr.get`; an unresolvable
entry is skipped silently; a successful resolve is saved unless
`saveRecord` throws, in which case the exception aborts the rest of the
loop (the returned flag says whether it was aborted). -/
def writeLoop : List (String × String) → World → World × Bool
  | [], w => (w, false)
  | (sysId, tblName) :: rest, w =>
    match grGet w.store tblName sysId with
    | none => writeLoop rest w
    | some _ =>
      if w.saveThrows tblName sysId then (w, true)
      else writeLoop rest { w with saved := w.saved ++ [(sysId, tblName)] }

/-- The try/catch/finally tail of `writeUpdateSet`: switch to the target
update set, run the write loop (whose exception, if any, is caught and only
logged), then unconditionally flush the object cache and switch back to the
originally selected update set.  The function itself returns normally on
both paths. -/
def writePhase (w : World) (currUpdateSetSysId targetSysId : String) (st : BuilderState) :
    Except String Unit × World × BuilderState :=
  let w2 := { w with currentUpdateSet := targetSysId }
  let w3 := (writeLoop st.capturedObjectMap w2).1
  (Except.ok (), { w3 with currentUpdateSet := currUpdateSetSysId }, flushObjectCache st)

/-- `writeUpdateSet(updateSetName)`: validates the name, resolves the
session scope and the currently selected update set, finds or inserts the
target update set in the current scope, and runs the write phase. -/
def writeUpdateSet (updateSetName : Option String) (w : World) (st : BuilderState) :
    Except String Unit × World × BuilderState :=
  if jsNil updateSetName then
    (Except.error "xSNUpdateSetBuilder.writeUpdateSet: parameter \x27updateSetName\x27 is nil!", w, st)
  else
    match getCurrentScopeGR w.store w.rawScopeName with
    | Except.error e => (Except.error e, w, st)
    | Except.ok scopeGR =>
      let currentScopeSysId := jsStr scopeGR.sys_id
      let currUpdateSetSysId := w.currentUpdateSet
      match grGet w.store TABLES.UPDATE_SET currUpdateSetSysId with
      | none =>
        (Except.error "xSNUpdateSetBuilder.writeUpdateSet: Unable to retrieve GR for current update set!", w, st)
      | some _ =>
        match queryStore w.store TABLES.UPDATE_SET
            [Cond.eq "application" currentScopeSysId, Cond.eq "name" (jsStr updateSetName)] with
        | usGR :: _ => writePhase w currUpdateSetSysId (jsStr usGR.sys_id) st
        | [] =>
          let newRow : Row :=
            ⟨TABLES.UPDATE_SET, some w.newUpdateSetSysId,
             [("application", currentScopeSysId), ("name", jsStr updateSetName)]⟩
          writePhase { w with store := w.store ++ [newRow] } currUpdateSetSysId
            w.newUpdateSetSysId st

/-! ### Lemmas about the captured-object map -/

theorem recordObject_some (st : BuilderState) (r : Row) :
    recordObject st (some r) =
      if jsTruthy (mapGet st.capturedObjectMap (jsStr r.sys_id)) then st
      else ⟨mapSet st.capturedObjectMap (jsStr r.sys_id) r.tbl, st.capturedObjectCount + 1⟩ :=
  rfl

theorem mapGet_mapSet_self (m : List (String × String)) (k v : String) :
    mapGet (mapSet m k v) k = some v := by
  induction m with
  | nil => simp [mapSet, mapGet]
  | cons kv rest ih =>
    obtain ⟨k', v'⟩ := kv
    by_cases h : k' = k
    · subst h; simp [mapSet, mapGet]
    · simp [mapSet, mapGet, h, ih]

theorem mapGet_mapSet_ne (m : List (String × String)) (k k' v : String) (h : k' ≠ k) :
    mapGet (mapSet m k v) k' = mapGet m k' := by
  induction m with
  | nil => simp [mapSet, mapGet, Ne.symm h]
  | cons kv rest ih =>
    obtain ⟨a, b⟩ := kv
    by_cases ha : a = k
    · subst ha
      have : ¬(a = k') := fun hh => h hh.symm
      simp [mapSet, mapGet, this]
    · by_cases ha' : a = k'
      · subst ha'; simp [mapSet, mapGet, ha]
      · simp [mapSet, mapGet, ha, ha', ih]

theorem mapGet_eq_none_iff (m : List (String × String)) (k : String) :
    mapGet m k = none ↔ k ∉ m.map Prod.fst := by
  induction m with
  | nil => simp [mapGet]
  | cons kv rest ih =>
    obtain ⟨a, b⟩ := kv
    by_cases ha : a = k
    · subst ha; simp [mapGet]
    · have hka : k ≠ a := fun hh => ha hh.symm
      simp [mapGet, ha, ih, hka]

theorem mapGet_eq_some_mem (m : List (String × String)) (k v : String)
    (h : mapGet m k = some v) : (k, v) ∈ m := by
  induction m with
  | nil => simp [mapGet] at h
  | cons kv rest ih =>
    obtain ⟨a, b⟩ := kv
    by_cases ha : a = k
    · subst ha
      simp [mapGet] at h
      simp [h]
    · simp [mapGet, ha] at h
      exact List.mem_cons_of_mem _ (ih h)

theorem mapSet_keys_of_none (m : List (String × String)) (k v : String)
    (h : mapGet m k = none) : (mapSet m k v).map Prod.fst = m.map Prod.fst ++ [k] := by
  induction m with
  | nil => simp [mapSet]
  | cons kv rest ih =>
    obtain ⟨a, b⟩ := kv
    by_cases ha : a = k
    · subst ha; simp [mapGet] at h
    · simp [mapGet, ha] at h
      simp [mapSet, ha, ih h]

theorem mem_mapSet (m : List (String × String)) (k v : String) (kv : String × String)
    (h : kv ∈ mapSet m k v) : kv = (k, v) ∨ kv ∈ m := by
  induction m with
  | nil => simp [mapSet] at h; simp [h]
  | cons ab rest ih =>
    obtain ⟨a, b⟩ := ab
    by_cases ha : a = k
    · subst ha
      simp [mapSet] at h
      rcases h with h | h
      · left; simp [h]
      · right; exact List.mem_cons_of_mem _ h
    · simp [mapSet, ha] at h
      rcases h with h | h
      · right; simp [h]
      · rcases ih h with h' | h'
        · left; exact h'
        · right; exact List.mem_cons_of_mem _ h'

/-- The builder invariant used below: counter = map size, keys unique,
stored table names non-empty. -/
theorem recordObject_preserves_inv (st : BuilderState) (gr : Option Row)
    (h1 : st.capturedObjectCount = st.capturedObjectMap.length)
    (h2 : (st.capturedObjectMap.map Prod.fst).Nodup)
    (h3 : ∀ kv ∈ st.capturedObjectMap, kv.2 ≠ "")
    (hg : ∀ r, gr = some r → r.tbl ≠ "") :
    (recordObject st gr).capturedObjectCount = (recordObject st gr).capturedObjectMap.length ∧
    ((recordObject st gr).capturedObjectMap.map Prod.fst).Nodup ∧
    ∀ kv ∈ (recordObject st gr).capturedObjectMap, kv.2 ≠ "" := by
  match gr with
  | none => exact ⟨h1, h2, h3⟩
  | some r =>
    rw [recordObject_some]
    cases hm : mapGet st.capturedObjectMap (jsStr r.sys_id) with
    | none =>
      simp only [jsTruthy, Bool.false_eq_true, if_false]
      have hkeys := mapSet_keys_of_none st.capturedObjectMap (jsStr r.sys_id) r.tbl hm
      refine ⟨?_, ?_, ?_⟩
      · have hlen : (mapSet st.capturedObjectMap (jsStr r.sys_id) r.tbl).length
            = st.capturedObjectMap.length + 1 := by
          have hh := congrArg List.length hkeys
          simpa using hh
        simp [hlen, h1]
      · rw [hkeys]
        have hk : jsStr r.sys_id ∉ st.capturedObjectMap.map Prod.fst :=
          (mapGet_eq_none_iff _ _).mp hm
        refine List.Nodup.append h2 (List.nodup_singleton _) ?_
        intro a ha hb
        simp only [List.mem_singleton] at hb
        subst hb
        exact hk ha
      · intro kv hkv
        rcases mem_mapSet _ _ _ _ hkv with h' | h'
        · subst h'; exact hg r rfl
        · exact h3 kv h'
    | some v =>
      have hv : v ≠ "" := h3 (jsStr r.sys_id, v) (mapGet_eq_some_mem _ _ _ hm)
      have : jsTruthy (some v) = true := by simp [jsTruthy, hv]
      simp only [this, if_true, ite_true]
      exact ⟨h1, h2, h3⟩

theorem runOps_inv (ops : List BuilderOp) (h : ops.all opHasRealTable = true) :
    (runOps ops).capturedObjectCount = (runOps ops).capturedObjectMap.length ∧
    ((runOps ops).capturedObjectMap.map Prod.fst).Nodup ∧
    ∀ kv ∈ (runOps ops).capturedObjectMap, kv.2 ≠ "" := by
  rw [runOps]
  have main : ∀ (l : List BuilderOp) (st : BuilderState),
      l.all opHasRealTable = true →
      st.capturedObjectCount = st.capturedObjectMap.length →
      (st.capturedObjectMap.map Prod.fst).Nodup →
      (∀ kv ∈ st.capturedObjectMap, kv.2 ≠ "") →
      (l.foldl applyOp st).capturedObjectCount = (l.foldl applyOp st).capturedObjectMap.length ∧
      ((l.foldl applyOp st).capturedObjectMap.map Prod.fst).Nodup ∧
      ∀ kv ∈ (l.foldl applyOp st).capturedObjectMap, kv.2 ≠ "" := by
    intro l
    induction l with
    | nil => intro st _ h1 h2 h3; exact ⟨h1, h2, h3⟩
    | cons op rest ih =>
      intro st hall h1 h2 h3
      rw [List.all_cons, Bool.and_eq_true] at hall
      match op with
      | BuilderOp.flush =>
        exact ih (flushObjectCache st) hall.2 rfl (by simp [flushObjectCache]) (by simp [flushObjectCache])
      | BuilderOp.record gr =>
        have hg : ∀ r, gr = some r → r.tbl ≠ "" := by
          intro r hr
          subst hr
          simpa [opHasRealTable] using hall.1
        obtain ⟨h1', h2', h3'⟩ := recordObject_preserves_inv st gr h1 h2 h3 hg
        exact ih _ hall.2 h1' h2' h3'
  exact main ops initialState h (by simp [initialState]) (by simp [initialState])
    (by simp [initialState])

/-- Recording the same row twice is a no-op on the second call, provided
the stored table name is truthy (non-empty). -/
theorem recordObject_idem (st : BuilderState) (r : Row) (ht : r.tbl ≠ "") :
    recordObject (recordObject st (some r)) (some r) = recordObject st (some r) := by
  by_cases hm : jsTruthy (mapGet st.capturedObjectMap (jsStr r.sys_id)) = true
  · simp [recordObject_some, hm]
  · rw [Bool.not_eq_true] at hm
    simp only [recordObject_some, hm, Bool.false_eq_true, if_false]
    rw [mapGet_mapSet_self]
    simp [jsTruthy, ht]

/-- C1 (amended): for every object reference whose identifier is non-nil
and whose table name is non-empty, a second `_recordObject` call with the
same record leaves the captured-object map and the counter unchanged, and
`getObjectCount()` is 1 after two record calls on a fresh builder.  (The
claim as frozen omits the table-name side condition; see the
counterexample.) -/
theorem c1_record_idempotent_for_real_tables (st : BuilderState) (r : Row)
    (_hid : jsStr r.sys_id ≠ "") (htbl : r.tbl ≠ "") :
    recordObject (recordObject st (some r)) (some r) = recordObject st (some r) ∧
    getObjectCount (recordObject (recordObject initialState (some r)) (some r)) = 1 := by
  refine ⟨recordObject_idem st r htbl, ?_⟩
  rw [recordObject_idem initialState r htbl]
  simp [recordObject_some, initialState, mapGet, jsTruthy, getObjectCount]

/-- C1 witness: the amended idempotence theorem applied at the concrete
record (table "t1", sys_id "x1") on a fresh builder. -/
theorem c1_record_idempotent_witness :
    jsStr (some "x1") ≠ "" ∧ ("t1" : String) ≠ "" ∧
    (recordObject (recordObject initialState (some ⟨"t1", some "x1", []⟩))
        (some ⟨"t1", some "x1", []⟩)
      = recordObject initialState (some ⟨"t1", some "x1", []⟩) ∧
     getObjectCount (recordObject (recordObject initialState (some ⟨"t1", some "x1", []⟩))
        (some ⟨"t1", some "x1", []⟩)) = 1) :=
  ⟨by decide, by decide,
   c1_record_idempotent_for_real_tables initialState ⟨"t1", some "x1", []⟩
     (by decide) (by decide)⟩

/-- C1 counterexample: with a record whose `getTableName()` is the empty
string (a falsy stored value), the second `_recordObject` call for the
same sys_id "x1" re-enters the insertion branch, so `getObjectCount()` is
2 after two record calls on a fresh builder, not 1 as the claim states. -/
theorem c1_counterexample_empty_table_name :
    getObjectCount (recordObject (recordObject initialState (some ⟨"", some "x1", []⟩))
      (some ⟨"", some "x1", []⟩)) = 2 := by
  rfl

/-- C6 (amended): `_recordObject` never throws; a nil record reference is
a silent no-op; but a non-nil record whose sys_id is nil is NOT a no-op:
it behaves exactly like a record whose identifier is the empty string and
is inserted under the empty-string key (idempotently, given a non-empty
table name). -/
theorem c6_nil_identifier_recorded_under_empty_key (st : BuilderState) (r : Row)
    (hid : r.sys_id = none) (htbl : r.tbl ≠ "") :
    recordObject st none = st ∧
    recordObject st (some r) = recordObject st (some { r with sys_id := some "" }) ∧
    recordObject (recordObject st (some r)) (some r) = recordObject st (some r) := by
  refine ⟨rfl, ?_, recordObject_idem st r htbl⟩
  obtain ⟨tb, sid, fs⟩ := r
  have hid2 : sid = none := hid
  subst hid2
  rfl

/-- C6 witness: the amended theorem applied to a record of table "t9" with
a nil sys_id, on an arbitrary concrete state. -/
theorem c6_nil_identifier_witness :
    (⟨"t9", none, []⟩ : Row).sys_id = none ∧ ("t9" : String) ≠ "" ∧
    (recordObject initialState none = initialState ∧
     recordObject initialState (some ⟨"t9", none, []⟩)
       = recordObject initialState (some ⟨"t9", some "", []⟩) ∧
     recordObject (recordObject initialState (some ⟨"t9", none, []⟩)) (some ⟨"t9", none, []⟩)
       = recordObject initialState (some ⟨"t9", none, []⟩)) :=
  ⟨by decide, by decide,
   c6_nil_identifier_recorded_under_empty_key initialState ⟨"t9", none, []⟩ rfl (by decide)⟩

/-- C6 counterexample: recording a record with a nil sys_id on a fresh
builder changes the map (a new entry keyed by the empty string) and
increments the counter, contradicting the claim that the call leaves both
unchanged. -/
theorem c6_counterexample_nil_sys_id_not_noop :
    recordObject initialState (some ⟨"sys_properties", none, []⟩)
      = ⟨[("", "sys_properties")], 1⟩ ∧
    recordObject initialState (some ⟨"sys_properties", none, []⟩) ≠ initialState := by
  constructor
  · rfl
  · decide

/-- C10 (amended): after any sequence of `_recordObject` /
`_flushObjectCache` operations from a fresh builder in which every
recorded row has a non-empty table name, `getObjectCount()` equals the
number of distinct keys of the captured-object map.  (The unrestricted
claim fails; see the counterexample.) -/
theorem c10_count_equals_distinct_keys (ops : List BuilderOp)
    (h : ops.all opHasRealTable = true) :
    getObjectCount (runOps ops) =
      ((runOps ops).capturedObjectMap.map Prod.fst).dedup.length := by
  obtain ⟨h1, h2, h3⟩ := runOps_inv ops h
  rw [getObjectCount, h1, List.Nodup.dedup h2, List.length_map]

/-- C10 witness: the invariant theorem applied to a concrete sequence of
two records (one duplicated) and a flush followed by another record. -/
theorem c10_count_equals_distinct_keys_witness :
    ([BuilderOp.record (some ⟨"t1", some "a", []⟩),
      BuilderOp.record (some ⟨"t1", some "a", []⟩),
      BuilderOp.flush,
      BuilderOp.record (some ⟨"t2", some "b", []⟩)].all opHasRealTable = true) ∧
    getObjectCount (runOps [BuilderOp.record (some ⟨"t1", some "a", []⟩),
      BuilderOp.record (some ⟨"t1", some "a", []⟩),
      BuilderOp.flush,
      BuilderOp.record (some ⟨"t2", some "b", []⟩)]) =
      (((runOps [BuilderOp.record (some ⟨"t1", some "a", []⟩),
        BuilderOp.record (some ⟨"t1", some "a", []⟩),
        BuilderOp.flush,
        BuilderOp.record (some ⟨"t2", some "b", []⟩)]).capturedObjectMap.map Prod.fst).dedup.length) :=
  ⟨by decide,
   c10_count_equals_distinct_keys
     [BuilderOp.record (some ⟨"t1", some "a", []⟩),
      BuilderOp.record (some ⟨"t1", some "a", []⟩),
      BuilderOp.flush,
      BuilderOp.record (some ⟨"t2", some "b", []⟩)] (by decide)⟩

/-- C10 counterexample: recording the same sys_id twice with an
empty-string table name yields a counter of 2 while the map has a single
distinct key, refuting the unrestricted counter-map invariant. -/
theorem c10_counterexample_counter_exceeds_keys :
    getObjectCount (runOps [BuilderOp.record (some ⟨"", some "x1", []⟩),
                            BuilderOp.record (some ⟨"", some "x1", []⟩)]) = 2 ∧
    ((runOps [BuilderOp.record (some ⟨"", some "x1", []⟩),
              BuilderOp.record (some ⟨"", some "x1", []⟩)]).capturedObjectMap.map
        Prod.fst).dedup.length = 1 := by
  constructor
  · rfl
  · decide

/-- C5: unique-lookup capture (`_captureUniqueGRObject`) records the
matched object and returns normally exactly when the query matches one
row; zero matches throw the not-found message and more than one match
throws the ambiguous-result message, and in both failure cases the
builder state carried by the throw is the unchanged input state. -/
theorem c5_unique_lookup_exactly_one (store : List Row) (q : GRQuery)
    (cm : String) (st : BuilderState) :
    (∀ r, queryStore store q.tbl q.conds = [r] →
      captureUniqueGRObject store (some q) cm st = Except.ok (recordObject st (some r), r)) ∧
    (queryStore store q.tbl q.conds = [] →
      captureUniqueGRObject store (some q) cm st
        = Except.error (cm ++ ": No " ++ q.tbl ++ " found for query \x27"
            ++ encodeQuery q.conds ++ "\x27", st)) ∧
    (2 ≤ (queryStore store q.tbl q.conds).length →
      captureUniqueGRObject store (some q) cm st
        = Except.error (cm ++ ": found multiple ("
            ++ toString (queryStore store q.tbl q.conds).length ++ ") "
            ++ q.tbl ++ " for provided query!", st)) ∧
    ((∃ st2 r, captureUniqueGRObject store (some q) cm st = Except.ok (st2, r)) ↔
      (queryStore store q.tbl q.conds).length = 1) := by
  refine ⟨?_, ?_, ?_, ?_⟩
  · intro r hr
    simp [captureUniqueGRObject, hr]
  · intro hr
    simp [captureUniqueGRObject, hr]
  · intro hlen
    match hq : queryStore store q.tbl q.conds with
    | [] => rw [hq] at hlen; simp at hlen
    | [r] => rw [hq] at hlen; simp at hlen
    | r1 :: r2 :: rest => simp [captureUniqueGRObject, hq]
  · constructor
    · rintro ⟨st2, r, hr⟩
      match hq : queryStore store q.tbl q.conds with
      | [] => rw [captureUniqueGRObject.eq_def] at hr; simp [hq] at hr
      | [r'] => simp [hq]
      | r1 :: r2 :: rest => rw [captureUniqueGRObject.eq_def] at hr; simp [hq] at hr
    · intro hlen
      match hq : queryStore store q.tbl q.conds with
      | [] => rw [hq] at hlen; simp at hlen
      | [r'] => exact ⟨recordObject st (some r'), r', by simp [captureUniqueGRObject, hq]⟩
      | r1 :: r2 :: rest => rw [hq] at hlen; simp at hlen

/-- C5 witness: the unique-lookup theorem applied to three concrete
stores holding one, zero, and two matching sys_properties rows. -/
theorem c5_unique_lookup_witness :
    captureUniqueGRObject [⟨"sys_properties", some "p1", [("name", "glide.foo")]⟩]
        (some ⟨"sys_properties", [Cond.eq "name" "glide.foo"]⟩) "m" initialState
      = Except.ok (recordObject initialState (some ⟨"sys_properties", some "p1", [("name", "glide.foo")]⟩),
          ⟨"sys_properties", some "p1", [("name", "glide.foo")]⟩) ∧
    captureUniqueGRObject []
        (some ⟨"sys_properties", [Cond.eq "name" "glide.foo"]⟩) "m" initialState
      = Except.error ("m" ++ ": No " ++ "sys_properties" ++ " found for query \x27"
          ++ encodeQuery [Cond.eq "name" "glide.foo"] ++ "\x27", initialState) ∧
    captureUniqueGRObject [⟨"sys_properties", some "p1", [("name", "glide.foo")]⟩,
        ⟨"sys_properties", some "p2", [("name", "glide.foo")]⟩]
        (some ⟨"sys_properties", [Cond.eq "name" "glide.foo"]⟩) "m" initialState
      = Except.error ("m" ++ ": found multiple ("
          ++ toString (queryStore [⟨"sys_properties", some "p1", [("name", "glide.foo")]⟩,
              ⟨"sys_properties", some "p2", [("name", "glide.foo")]⟩] "sys_properties"
              [Cond.eq "name" "glide.foo"]).length ++ ") "
          ++ "sys_properties" ++ " for provided query!", initialState) :=
  ⟨(c5_unique_lookup_exactly_one [⟨"sys_properties", some "p1", [("name", "glide.foo")]⟩]
      ⟨"sys_properties", [Cond.eq "name" "glide.foo"]⟩ "m" initialState).1
      ⟨"sys_properties", some "p1", [("name", "glide.foo")]⟩ (by decide),
   (c5_unique_lookup_exactly_one [] ⟨"sys_properties", [Cond.eq "name" "glide.foo"]⟩
      "m" initialState).2.1 (by decide),
   (c5_unique_lookup_exactly_one [⟨"sys_properties", some "p1", [("name", "glide.foo")]⟩,
      ⟨"sys_properties", some "p2", [("name", "glide.foo")]⟩]
      ⟨"sys_properties", [Cond.eq "name" "glide.foo"]⟩ "m" initialState).2.2.1 (by decide)⟩

/-- A two-element archive-rule cycle: rules "a" and "b", each with one
"Archive Related Records" child whose table_archive_rule references the
other rule. -/
def cycleStore : List Row :=
  [⟨"sys_archive", some "a", []⟩,
   ⟨"sys_archive", some "b", []⟩,
   ⟨"sys_archive_related", some "ra", [("archive_map", "a"), ("table_archive_rule", "b")]⟩,
   ⟨"sys_archive_related", some "rb", [("archive_map", "b"), ("table_archive_rule", "a")]⟩]

/-- C4 (code bug): `captureArchivalRule` does NOT terminate on a
two-element cycle.  The guard `chld != ruleSysId` only skips a child equal
to the rule currently being expanded, not a child equal to an ancestor of
the recursion path, so capturing rule "a" recurses a -> b -> a -> ...: for
every recursion budget, and from every builder state, the bounded model of
the call exhausts its budget without completing (for either entry point of
the cycle).  The claim that the traversal terminates visiting each rule
once is what the source comment "Ensure no circular references" intends,
but the code only realises it for self-references. -/
theorem c4_archival_rule_cycle_never_completes :
    ∀ (n : Nat) (st : BuilderState),
      captureArchivalRuleFuel n cycleStore (some "a") st = none ∧
      captureArchivalRuleFuel n cycleStore (some "b") st = none := by
  intro n
  induction n with
  | zero => intro st; constructor <;> simp [captureArchivalRuleFuel]
  | succ n ih =>
    intro st
    have ha := fun st => (ih st).1
    have hb := fun st => (ih st).2
    have ga : grGet cycleStore TABLES.ARCHIVE_RULE "a" = some ⟨"sys_archive", some "a", []⟩ := by
      decide
    have gb : grGet cycleStore TABLES.ARCHIVE_RULE "b" = some ⟨"sys_archive", some "b", []⟩ := by
      decide
    have qa : queryStore cycleStore TABLES.ARCHIVE_RULE_RELATED [Cond.eq "archive_map" "a"]
        = [⟨"sys_archive_related", some "ra", [("archive_map", "a"), ("table_archive_rule", "b")]⟩] := by
      decide
    have qb : queryStore cycleStore TABLES.ARCHIVE_RULE_RELATED [Cond.eq "archive_map" "b"]
        = [⟨"sys_archive_related", some "rb", [("archive_map", "b"), ("table_archive_rule", "a")]⟩] := by
      decide
    constructor
    · simp [captureArchivalRuleFuel, archRelLoop, ga, qa, getF, mapGet, jsNil, jsStr, hb]
    · simp [captureArchivalRuleFuel, archRelLoop, gb, qb, getF, mapGet, jsNil, jsStr, ha]

/-- C3 (amended): in commit's per-entry write loop, a resolution failure
(an entry `gr.get` cannot re-load) is skipped and never prevents the
remaining entries from being attempted: when no `saveRecord` call throws,
the loop writes exactly the re-resolvable entries, in order, and is not
aborted.  However an error raised by `saveRecord` while writing one entry
aborts the rest of the loop (second conjunct): the remaining entries are
not attempted, which is the part of the frozen claim that fails. -/
theorem c3_write_loop_skips_unresolvable_entries (w : World) (entries : List (String × String)) :
    ((∀ p ∈ entries, w.saveThrows p.2 p.1 = false) →
      writeLoop entries w =
        ({ w with saved := w.saved
            ++ entries.filter (fun p => (grGet w.store p.2 p.1).isSome) }, false)) ∧
    (∀ sid tbl rest, (grGet w.store tbl sid).isSome = true → w.saveThrows tbl sid = true →
      writeLoop ((sid, tbl) :: rest) w = (w, true)) := by
  constructor
  · induction entries generalizing w with
    | nil => intro _; simp [writeLoop]
    | cons p rest ih =>
      intro hall
      obtain ⟨sid, tbl⟩ := p
      have hhead : w.saveThrows tbl sid = false := hall (sid, tbl) (List.mem_cons_self _ _)
      have hrest : ∀ q ∈ rest, w.saveThrows q.2 q.1 = false :=
        fun q hq => hall q (List.mem_cons_of_mem _ hq)
      cases hg : grGet w.store tbl sid with
      | none =>
        rw [writeLoop, hg]
        rw [ih w hrest]
        simp [hg]
      | some r =>
        rw [writeLoop, hg]
        simp only [hhead, Bool.false_eq_true, if_false]
        rw [ih { w with saved := w.saved ++ [(sid, tbl)] } hrest]
        simp [hg]
  · intro sid tbl rest hres hthrows
    rw [writeLoop]
    obtain ⟨r, hr⟩ := Option.isSome_iff_exists.mp hres
    rw [hr]
    simp [hthrows]

/-- C3 witness: the loop theorem applied to a concrete world where the
first entry no longer resolves and the second does, with no save
throwing: the second entry is still written. -/
theorem c3_write_loop_witness :
    (∀ p ∈ ([("sGone", "t1"), ("s2", "t2")] : List (String × String)),
      (⟨[⟨"t2", some "s2", []⟩], none, "cur", "new", fun _ _ => false, []⟩ : World).saveThrows p.2 p.1 = false) ∧
    writeLoop [("sGone", "t1"), ("s2", "t2")]
        ⟨[⟨"t2", some "s2", []⟩], none, "cur", "new", fun _ _ => false, []⟩ =
      ({ (⟨[⟨"t2", some "s2", []⟩], none, "cur", "new", fun _ _ => false, []⟩ : World) with
          saved := (⟨[⟨"t2", some "s2", []⟩], none, "cur", "new", fun _ _ => false, []⟩ : World).saved
            ++ ([("sGone", "t1"), ("s2", "t2")] : List (String × String)).filter
                (fun p => (grGet (⟨[⟨"t2", some "s2", []⟩], none, "cur", "new", fun _ _ => false, []⟩ : World).store p.2 p.1).isSome) },
        false) :=
  ⟨by decide,
   (c3_write_loop_skips_unresolvable_entries
      ⟨[⟨"t2", some "s2", []⟩], none, "cur", "new", fun _ _ => false, []⟩
      [("sGone", "t1"), ("s2", "t2")]).1 (by decide)⟩

/-- C3 counterexample: with three captured entries, all re-resolvable, and
`saveRecord` throwing on the second, the third entry is never attempted:
the saves log holds only the first entry after commit, although the third
entry still resolves — refuting "a failure affecting one entry never
prevents the remaining entries from being written". -/
theorem c3_counterexample_save_error_aborts_rest :
    (writeUpdateSet (some "My US")
      ⟨[⟨"sys_scope", some "scp1", [("name", "global")]⟩,
        ⟨"sys_update_set", some "cur1", [("application", "scp1"), ("name", "Default")]⟩,
        ⟨"sys_update_set", some "tgt1", [("application", "scp1"), ("name", "My US")]⟩,
        ⟨"t1", some "s1", []⟩, ⟨"t2", some "s2", []⟩, ⟨"t3", some "s3", []⟩],
        some "rhino.global", "cur1", "new1", (fun _ sid => sid == "s2"), []⟩
      ⟨[("s1", "t1"), ("s2", "t2"), ("s3", "t3")], 3⟩).2.1.saved = [("s1", "t1")] ∧
    (grGet [⟨"sys_scope", some "scp1", [("name", "global")]⟩,
        ⟨"sys_update_set", some "cur1", [("application", "scp1"), ("name", "Default")]⟩,
        ⟨"sys_update_set", some "tgt1", [("application", "scp1"), ("name", "My US")]⟩,
        ⟨"t1", some "s1", []⟩, ⟨"t2", some "s2", []⟩, ⟨"t3", some "s3", []⟩] "t3" "s3").isSome = true := by
  constructor
  · rfl
  · rfl

/-- Once the pre-checks of `writeUpdateSet` succeed (non-nil name, scope
resolved, current update set re-loaded), the call runs the try/finally
write phase with the snapshot of the originally selected update set. -/
theorem writeUpdateSet_phase_form (name : Option String) (w : World) (st : BuilderState)
    (hname : jsNil name = false) (sgr : Row)
    (hscope : getCurrentScopeGR w.store w.rawScopeName = Except.ok sgr)
    (ur : Row) (hcur : grGet w.store TABLES.UPDATE_SET w.currentUpdateSet = some ur) :
    ∃ w1 target, writeUpdateSet name w st = writePhase w1 w.currentUpdateSet target st := by
  simp only [writeUpdateSet, hname, Bool.false_eq_true, if_false, hscope, hcur]
  cases hfound : queryStore w.store TABLES.UPDATE_SET
      [Cond.eq "application" (jsStr sgr.sys_id), Cond.eq "name" (jsStr name)] with
  | nil => exact ⟨_, _, rfl⟩
  | cons usGR rest => exact ⟨_, _, rfl⟩

/-- C2 (amended): on every exit path of `writeUpdateSet` that reaches the
write phase (the try block) — whether the per-entry write loop completes
normally or raises an error that the catch swallows — the CaptureSet is
cleared (map emptied, counter reset to 0) and the caller's originally
selected update set is restored before the call returns.  Exit paths that
throw before the try block (nil name, unresolvable scope, unresolvable
current update set) do neither; see the counterexample. -/
theorem c2_commit_always_clears_and_restores (name : Option String) (w : World)
    (st : BuilderState) (hname : jsNil name = false) (sgr : Row)
    (hscope : getCurrentScopeGR w.store w.rawScopeName = Except.ok sgr)
    (ur : Row) (hcur : grGet w.store TABLES.UPDATE_SET w.currentUpdateSet = some ur) :
    (writeUpdateSet name w st).2.2.capturedObjectMap = [] ∧
    (writeUpdateSet name w st).2.2.capturedObjectCount = 0 ∧
    (writeUpdateSet name w st).2.1.currentUpdateSet = w.currentUpdateSet := by
  obtain ⟨w1, target, heq⟩ := writeUpdateSet_phase_form name w st hname sgr hscope ur hcur
  rw [heq]
  simp [writePhase, flushObjectCache]

/-- C2 witness: the clear-and-restore theorem at a concrete session whose
scope and current update set resolve, with two pending entries and a
`saveRecord` oracle that throws on the first of them. -/
theorem c2_commit_clears_and_restores_witness :
    jsNil (some "My US") = false ∧
    getCurrentScopeGR [⟨"sys_scope", some "scp1", [("name", "global")]⟩,
        ⟨"sys_update_set", some "cur1", [("application", "scp1"), ("name", "Default")]⟩]
        (some "rhino.global")
      = Except.ok ⟨"sys_scope", some "scp1", [("name", "global")]⟩ ∧
    ((writeUpdateSet (some "My US")
        ⟨[⟨"sys_scope", some "scp1", [("name", "global")]⟩,
          ⟨"sys_update_set", some "cur1", [("application", "scp1"), ("name", "Default")]⟩],
          some "rhino.global", "cur1", "new1", (fun _ sid => sid == "s1"), []⟩
        ⟨[("s1", "t1"), ("s2", "t2")], 2⟩).2.2.capturedObjectMap = [] ∧
     (writeUpdateSet (some "My US")
        ⟨[⟨"sys_scope", some "scp1", [("name", "global")]⟩,
          ⟨"sys_update_set", some "cur1", [("application", "scp1"), ("name", "Default")]⟩],
          some "rhino.global", "cur1", "new1", (fun _ sid => sid == "s1"), []⟩
        ⟨[("s1", "t1"), ("s2", "t2")], 2⟩).2.2.capturedObjectCount = 0 ∧
     (writeUpdateSet (some "My US")
        ⟨[⟨"sys_scope", some "scp1", [("name", "global")]⟩,
          ⟨"sys_update_set", some "cur1", [("application", "scp1"), ("name", "Default")]⟩],
          some "rhino.global", "cur1", "new1", (fun _ sid => sid == "s1"), []⟩
        ⟨[("s1", "t1"), ("s2", "t2")], 2⟩).2.1.currentUpdateSet
       = (⟨[⟨"sys_scope", some "scp1", [("name", "global")]⟩,
          ⟨"sys_update_set", some "cur1", [("application", "scp1"), ("name", "Default")]⟩],
          some "rhino.global", "cur1", "new1", (fun _ sid => sid == "s1"), []⟩ : World).currentUpdateSet) :=
  ⟨by decide, by rfl,
   c2_commit_always_clears_and_restores (some "My US")
     ⟨[⟨"sys_scope", some "scp1", [("name", "global")]⟩,
       ⟨"sys_update_set", some "cur1", [("application", "scp1"), ("name", "Default")]⟩],
       some "rhino.global", "cur1", "new1", (fun _ sid => sid == "s1"), []⟩
     ⟨[("s1", "t1"), ("s2", "t2")], 2⟩ (by decide)
     ⟨"sys_scope", some "scp1", [("name", "global")]⟩ (by rfl)
     ⟨"sys_update_set", some "cur1", [("application", "scp1"), ("name", "Default")]⟩ (by rfl)⟩

/-- C2 counterexample: calling `writeUpdateSet` with a nil name while one
object is captured throws before the try block: the call exits with the
CaptureSet NOT cleared (the single entry and counter 1 survive) and with
no restore performed — refuting "on every exit path ... the CaptureSet is
cleared ... and the caller's originally active update set is restored". -/
theorem c2_counterexample_early_throw_keeps_capture_set :
    (writeUpdateSet none
        ⟨[], none, "cur1", "new1", (fun _ _ => false), []⟩
        ⟨[("s1", "t1")], 1⟩)
      = (Except.error "xSNUpdateSetBuilder.writeUpdateSet: parameter \x27updateSetName\x27 is nil!",
         ⟨[], none, "cur1", "new1", (fun _ _ => false), []⟩,
         ⟨[("s1", "t1")], 1⟩) ∧
    (⟨[("s1", "t1")], 1⟩ : BuilderState).capturedObjectMap ≠ [] := by
  constructor
  · rfl
  · decide

/-- C7 (amended): `writeUpdateSet` produces no CommitResult.  Whenever the
pre-checks succeed and the write phase is reached, the call returns
normally with no value (undefined — modelled as `Except.ok ()`), whatever
happened inside the per-entry write loop: errors there are caught and only
logged, and no attempted/written counts are reported to the caller. -/
theorem c7_commit_returns_no_counts (name : Option String) (w : World)
    (st : BuilderState) (hname : jsNil name = false) (sgr : Row)
    (hscope : getCurrentScopeGR w.store w.rawScopeName = Except.ok sgr)
    (ur : Row) (hcur : grGet w.store TABLES.UPDATE_SET w.currentUpdateSet = some ur) :
    (writeUpdateSet name w st).1 = Except.ok () := by
  obtain ⟨w1, target, heq⟩ := writeUpdateSet_phase_form name w st hname sgr hscope ur hcur
  rw [heq]
  rfl

/-- C7 witness: the no-result theorem at a concrete resolvable session. -/
theorem c7_commit_returns_no_counts_witness :
    jsNil (some "US7") = false ∧
    (writeUpdateSet (some "US7")
        ⟨[⟨"sys_scope", some "scp1", [("name", "global")]⟩,
          ⟨"sys_update_set", some "cur1", [("application", "scp1"), ("name", "Default")]⟩],
          some "global", "cur1", "new1", (fun _ _ => false), []⟩
        ⟨[("s1", "t1")], 1⟩).1 = Except.ok () :=
  ⟨by decide,
   c7_commit_returns_no_counts (some "US7")
     ⟨[⟨"sys_scope", some "scp1", [("name", "global")]⟩,
       ⟨"sys_update_set", some "cur1", [("application", "scp1"), ("name", "Default")]⟩],
       some "global", "cur1", "new1", (fun _ _ => false), []⟩
     ⟨[("s1", "t1")], 1⟩ (by decide)
     ⟨"sys_scope", some "scp1", [("name", "global")]⟩ (by rfl)
     ⟨"sys_update_set", some "cur1", [("application", "scp1"), ("name", "Default")]⟩ (by rfl)⟩

/-- C7 counterexample: two commits over the same three-entry CaptureSet —
one where every save succeeds (3 entries written) and one where the second
save throws (1 entry written) — return the very same value, so the return
value of `writeUpdateSet` cannot carry the attempted-versus-written
counts the claim says a CommitResult reports. -/
theorem c7_counterexample_identical_results_different_counts :
    (writeUpdateSet (some "My US")
      ⟨[⟨"sys_scope", some "scp1", [("name", "global")]⟩,
        ⟨"sys_update_set", some "cur1", [("application", "scp1"), ("name", "Default")]⟩,
        ⟨"sys_update_set", some "tgt1", [("application", "scp1"), ("name", "My US")]⟩,
        ⟨"t1", some "s1", []⟩, ⟨"t2", some "s2", []⟩, ⟨"t3", some "s3", []⟩],
        some "rhino.global", "cur1", "new1", (fun _ _ => false), []⟩
      ⟨[("s1", "t1"), ("s2", "t2"), ("s3", "t3")], 3⟩).1 = Except.ok () ∧
    (writeUpdateSet (some "My US")
      ⟨[⟨"sys_scope", some "scp1", [("name", "global")]⟩,
        ⟨"sys_update_set", some "cur1", [("application", "scp1"), ("name", "Default")]⟩,
        ⟨"sys_update_set", some "tgt1", [("application", "scp1"), ("name", "My US")]⟩,
        ⟨"t1", some "s1", []⟩, ⟨"t2", some "s2", []⟩, ⟨"t3", some "s3", []⟩],
        some "rhino.global", "cur1", "new1", (fun _ sid => sid == "s2"), []⟩
      ⟨[("s1", "t1"), ("s2", "t2"), ("s3", "t3")], 3⟩).1 = Except.ok () ∧
    (writeUpdateSet (some "My US")
      ⟨[⟨"sys_scope", some "scp1", [("name", "global")]⟩,
        ⟨"sys_update_set", some "cur1", [("application", "scp1"), ("name", "Default")]⟩,
        ⟨"sys_update_set", some "tgt1", [("application", "scp1"), ("name", "My US")]⟩,
        ⟨"t1", some "s1", []⟩, ⟨"t2", some "s2", []⟩, ⟨"t3", some "s3", []⟩],
        some "rhino.global", "cur1", "new1", (fun _ _ => false), []⟩
      ⟨[("s1", "t1"), ("s2", "t2"), ("s3", "t3")], 3⟩).2.1.saved.length = 3 ∧
    (writeUpdateSet (some "My US")
      ⟨[⟨"sys_scope", some "scp1", [("name", "global")]⟩,
        ⟨"sys_update_set", some "cur1", [("application", "scp1"), ("name", "Default")]⟩,
        ⟨"sys_update_set", some "tgt1", [("application", "scp1"), ("name", "My US")]⟩,
        ⟨"t1", some "s1", []⟩, ⟨"t2", some "s2", []⟩, ⟨"t3", some "s3", []⟩],
        some "rhino.global", "cur1", "new1", (fun _ sid => sid == "s2"), []⟩
      ⟨[("s1", "t1"), ("s2", "t2"), ("s3", "t3")], 3⟩).2.1.saved.length = 1 :=
  ⟨rfl, rfl, rfl, rfl⟩

/-- C8: every public capture operation modelled here fails fast on a nil
required parameter: it throws its nil-parameter message before touching
the record store (the result is the same for every store and session
scope) and the builder state carried by the throw is the unchanged input
state; `writeUpdateSet` additionally leaves the session world untouched. -/
theorem c8_public_api_fails_fast_on_nil (p p2 : Option String) (hp : jsNil p = true)
    (store : List Row) (raw : Option String) (w : World) (st : BuilderState) (n : Nat) :
    writeUpdateSet p w st
      = (Except.error "xSNUpdateSetBuilder.writeUpdateSet: parameter \x27updateSetName\x27 is nil!", w, st) ∧
    captureTableWithRelatedObjects store p st
      = Except.error ("xSNUpdateSetBuilder.captureTableWithRelatedObjects: parameter \x27tblName\x27 is nil!", st) ∧
    captureServiceCatalogItem store p st
      = Except.error ("xSNUpdateSetBuilder.captureServiceCatalogItem: parameter \x27catSysId\x27 is nil!", st) ∧
    captureServiceCatalogVariable store p st
      = Except.error ("xSNUpdateSetBuilder.captureServiceCatalogVariable: parameter \x27varSysId\x27 is nil!", st) ∧
    captureDatabaseView store p st
      = Except.error ("xSNUpdateSetBuilder.captureDatabaseView: parameter \x27vName\x27 is nil!", st) ∧
    captureApplicationMenuAndModules store p st
      = Except.error ("xSNUpdateSetBuilder.captureApplicationMenuAndModules: parameter \x27menuSysId\x27 is nil!", st) ∧
    captureScriptIncludeByName store raw p st
      = Except.error ("xSNUpdateSetBuilder.captureScriptIncludeByName: parameter \x27scrName\x27 is nil!", st) ∧
    captureUserRole store raw p st
      = Except.error ("xSNUpdateSetBuilder.captureUserRole: parameter \x27roleName\x27 is nil!", st) ∧
    captureApplicationRecord store p st
      = Except.error ("xSNUpdateSetBuilder.captureTableNumber: parameter \x27appName\x27 is nil!", st) ∧
    captureSystemProperty store p st
      = Except.error ("xSNUpdateSetBuilder.captureSystemProperty: parameter \x27propName\x27 is nil!", st) ∧
    captureEventRegistration store p st
      = Except.error ("xSNUpdateSetBuilder.captureEventRegistration: parameter \x27evtName\x27 is nil!", st) ∧
    captureSystemPropertyCategoryWithAssociations store p st
      = Except.error ("captureSystemPropertyCategory: parameter \x27catName\x27 is nil!", st) ∧
    captureACLsForTable store p st
      = Except.error ("xSNUpdateSetBuilder.captureACLsForTable: parameter \x27tblName\x27 is nil!", st) ∧
    captureACLsForTableAndField store p p2 st
      = Except.error ("xSNUpdateSetBuilder.captureACLsForTableAndField: parameter \x27tblName\x27 is nil!", st) ∧
    captureUIPolicesForTable store p st
      = Except.error ("xSNUpdateSetBuilder.captureUIPolicesForTable: parameter \x27tblName\x27 is nil!", st) ∧
    captureDataPolicesForTable store p st
      = Except.error ("xSNUpdateSetBuilder.captureDataPolicesForTable: parameter \x27tblName\x27 is nil!", st) ∧
    captureTableNumber store p st
      = Except.error ("xSNUpdateSetBuilder.captureTableNumber: parameter \x27tblName\x27 is nil!", st) ∧
    captureTableFieldAndAssociatedObjects store p p2 st
      = Except.error ("xSNUpdateSetBuilder.captureTableFieldAndAssociatedObjects: parameter \x27tblName\x27 is nil!", st) ∧
    captureListLayoutsForTable store p st
      = Except.error ("xSNUpdateSetBuilder.captureListLayoutsForTable: parameter \x27tblName\x27 is nil!", st) ∧
    captureFormLayoutsForTable store p st
      = Except.error ("xSNUpdateSetBuilder.captureFormLayoutsForTable: parameter \x27tblName\x27 is nil!", st) ∧
    captureCatalogUIPolicy store p st
      = Except.error ("xSNUpdateSetBuilder.captureCatalogUIPolicy: parameter \x27catUIPolicySysId\x27 is nil!", st) ∧
    captureArchivalRuleFuel (n + 1) store p st
      = some (Except.error ("captureArchivalRule: parameter \x27ruleSysId\x27 is nil!", st)) := by
  refine ⟨?_, ?_, ?_, ?_, ?_, ?_, ?_, ?_, ?_, ?_, ?_, ?_, ?_, ?_, ?_, ?_, ?_, ?_, ?_, ?_, ?_, ?_⟩
  · simp [writeUpdateSet, hp]
  · simp [captureTableWithRelatedObjects, hp]
  · simp [captureServiceCatalogItem, hp]
  · simp [captureServiceCatalogVariable, hp]
  · simp [captureDatabaseView, hp]
  · simp [captureApplicationMenuAndModules, hp]
  · simp [captureScriptIncludeByName, hp]
  · simp [captureUserRole, hp]
  · simp [captureApplicationRecord, hp]
  · simp [captureSystemProperty, hp]
  · simp [captureEventRegistration, hp]
  · simp [captureSystemPropertyCategoryWithAssociations, hp]
  · simp [captureACLsForTable, hp]
  · simp [captureACLsForTableAndField, hp]
  · simp [captureUIPolicesForTable, hp]
  · simp [captureDataPolicesForTable, hp]
  · simp [captureTableNumber, hp]
  · simp [captureTableFieldAndAssociatedObjects, hp]
  · simp [captureListLayoutsForTable, hp]
  · simp [captureFormLayoutsForTable, hp]
  · simp [captureCatalogUIPolicy, hp]
  · simp [captureArchivalRuleFuel, hp]

/-- C8 witness: the fail-fast theorem applied at the nil parameter `none`
with a one-row store, a session scope, a concrete world and one pending
captured entry. -/
theorem c8_public_api_fails_fast_witness :
    jsNil (none : Option String) = true ∧
    writeUpdateSet none ⟨[⟨"t1", some "s1", []⟩], some "global", "cur", "new", (fun _ _ => false), []⟩
        ⟨[("s1", "t1")], 1⟩
      = (Except.error "xSNUpdateSetBuilder.writeUpdateSet: parameter \x27updateSetName\x27 is nil!",
         ⟨[⟨"t1", some "s1", []⟩], some "global", "cur", "new", (fun _ _ => false), []⟩,
         ⟨[("s1", "t1")], 1⟩) ∧
    captureTableWithRelatedObjects [⟨"t1", some "s1", []⟩] none ⟨[("s1", "t1")], 1⟩
      = Except.error ("xSNUpdateSetBuilder.captureTableWithRelatedObjects: parameter \x27tblName\x27 is nil!",
          ⟨[("s1", "t1")], 1⟩) ∧
    captureServiceCatalogItem [⟨"t1", some "s1", []⟩] none ⟨[("s1", "t1")], 1⟩
      = Except.error ("xSNUpdateSetBuilder.captureServiceCatalogItem: parameter \x27catSysId\x27 is nil!",
          ⟨[("s1", "t1")], 1⟩) :=
  ⟨by decide,
   (c8_public_api_fails_fast_on_nil none (some "f") (by decide) [⟨"t1", some "s1", []⟩]
      (some "global") ⟨[⟨"t1", some "s1", []⟩], some "global", "cur", "new", (fun _ _ => false), []⟩
      ⟨[("s1", "t1")], 1⟩ 0).1,
   (c8_public_api_fails_fast_on_nil none (some "f") (by decide) [⟨"t1", some "s1", []⟩]
      (some "global") ⟨[⟨"t1", some "s1", []⟩], some "global", "cur", "new", (fun _ _ => false), []⟩
      ⟨[("s1", "t1")], 1⟩ 0).2.1,
   (c8_public_api_fails_fast_on_nil none (some "f") (by decide) [⟨"t1", some "s1", []⟩]
      (some "global") ⟨[⟨"t1", some "s1", []⟩], some "global", "cur", "new", (fun _ _ => false), []⟩
      ⟨[("s1", "t1")], 1⟩ 0).2.2.1⟩

theorem jsTruthy_isSome (o : Option String) (h : jsTruthy o = true) : o.isSome = true := by
  cases o with
  | none => simp [jsTruthy] at h
  | some s => rfl

theorem recordObject_preserves_isSome (st : BuilderState) (gr : Option Row) (k : String)
    (h : (mapGet st.capturedObjectMap k).isSome = true) :
    (mapGet (recordObject st gr).capturedObjectMap k).isSome = true := by
  cases gr with
  | none => exact h
  | some r =>
    rw [recordObject_some]
    by_cases ht : jsTruthy (mapGet st.capturedObjectMap (jsStr r.sys_id)) = true
    · simpa [ht] using h
    · rw [Bool.not_eq_true] at ht
      simp only [ht, Bool.false_eq_true, if_false]
      by_cases hk : k = jsStr r.sys_id
      · subst hk; rw [mapGet_mapSet_self]; rfl
      · rw [mapGet_mapSet_ne _ _ _ _ hk]; exact h

theorem recordObject_self_isSome (st : BuilderState) (r : Row) :
    (mapGet (recordObject st (some r)).capturedObjectMap (jsStr r.sys_id)).isSome = true := by
  rw [recordObject_some]
  by_cases ht : jsTruthy (mapGet st.capturedObjectMap (jsStr r.sys_id)) = true
  · simpa [ht] using jsTruthy_isSome _ ht
  · rw [Bool.not_eq_true] at ht
    simp only [ht, Bool.false_eq_true, if_false]
    rw [mapGet_mapSet_self]; rfl

theorem foldl_record_preserves_isSome (l : List Row) (st : BuilderState) (k : String)
    (h : (mapGet st.capturedObjectMap k).isSome = true) :
    (mapGet ((l.foldl (fun s r => recordObject s (some r)) st).capturedObjectMap) k).isSome
      = true := by
  induction l generalizing st with
  | nil => exact h
  | cons r rest ih => exact ih _ (recordObject_preserves_isSome st (some r) k h)

theorem foldl_record_mem_isSome (l : List Row) (c : Row) :
    ∀ (st : BuilderState), c ∈ l →
    (mapGet ((l.foldl (fun s r => recordObject s (some r)) st).capturedObjectMap)
      (jsStr c.sys_id)).isSome = true := by
  induction l with
  | nil => intro st hc; simp at hc
  | cons r rest ih =>
    intro st hc
    simp only [List.foldl_cons]
    rcases List.mem_cons.mp hc with h | h
    · subst h
      exact foldl_record_preserves_isSome rest _ _ (recordObject_self_isSome st c)
    · exact ih _ h

theorem condRecord_preserves_isSome (b : Bool) (s : BuilderState) (o : Option Row) (k : String)
    (h : (mapGet s.capturedObjectMap k).isSome = true) :
    (mapGet ((if b then s else recordObject s o).capturedObjectMap) k).isSome = true := by
  cases b
  · simpa using recordObject_preserves_isSome s o k h
  · simpa using h

theorem getRefRecord_some_not_nil (store : List Row) (r : Row) (f : String) (p : Row)
    (h : getRefRecord store r f = some p) : jsNil (getF r f) = false := by
  cases hn : jsNil (getF r f)
  · rfl
  · simp [getRefRecord, hn] at h

/-- C9: `captureServiceCatalogVariable` dispatches on the variable's type
discriminant.  When the variable resolves, the call returns normally with
the variable itself recorded, and additionally: for type "15" the linked
UI Page record is recorded (when its reference resolves); for types "3"
and "5" every question-choice row of the variable is recorded; for types
"14" and "17" the linked macro / summary macro / SP widget / macroponent
records are recorded (when their references resolve); and for every other
type value the final state is exactly the state after recording the
variable alone — no auxiliary object is recorded. -/
theorem c9_conditional_branch_dispatch (store : List Row) (v : Option String)
    (st : BuilderState) (varGR : Row) (hnil : jsNil v = false)
    (hfind : grGet store TABLES.CATALOG_ITEM_VARIABLE (jsStr v) = some varGR) :
    ∃ stv, captureServiceCatalogVariable store v st = Except.ok stv ∧
      (mapGet stv.capturedObjectMap (jsStr varGR.sys_id)).isSome = true ∧
      (jsStr (getF varGR "type") = "15" →
        ∀ p, getRefRecord store varGR "ui_page" = some p →
          (mapGet stv.capturedObjectMap (jsStr p.sys_id)).isSome = true) ∧
      ((jsStr (getF varGR "type") = "3" ∨ jsStr (getF varGR "type") = "5") →
        ∀ c ∈ queryStore store TABLES.CATALOG_ITEM_VARIABLE_QUESTION_CHOICE
            [Cond.eq "question" (jsStr varGR.sys_id)],
          (mapGet stv.capturedObjectMap (jsStr c.sys_id)).isSome = true) ∧
      ((jsStr (getF varGR "type") = "14" ∨ jsStr (getF varGR "type") = "17") →
        (∀ p, getRefRecord store varGR "macro" = some p →
          (mapGet stv.capturedObjectMap (jsStr p.sys_id)).isSome = true) ∧
        (∀ p, getRefRecord store varGR "summary_macro" = some p →
          (mapGet stv.capturedObjectMap (jsStr p.sys_id)).isSome = true) ∧
        (∀ p, getRefRecord store varGR "sp_widget" = some p →
          (mapGet stv.capturedObjectMap (jsStr p.sys_id)).isSome = true) ∧
        (∀ p, getRefRecord store varGR "macroponent" = some p →
          (mapGet stv.capturedObjectMap (jsStr p.sys_id)).isSome = true)) ∧
      (jsStr (getF varGR "type") ∉ (["3", "5", "14", "15", "17"] : List String) →
        stv = recordObject st (some varGR)) := by
  simp only [captureServiceCatalogVariable, hnil, Bool.false_eq_true, if_false, hfind]
  by_cases h1417 : (jsStr (getF varGR "type") == "14" || jsStr (getF varGR "type") == "17") = true
  · simp only [h1417, if_true]
    refine ⟨_, rfl, ?_, ?_, ?_, ?_, ?_⟩
    · apply condRecord_preserves_isSome
      apply condRecord_preserves_isSome
      apply condRecord_preserves_isSome
      apply condRecord_preserves_isSome
      exact recordObject_self_isSome st varGR
    · intro h; simp [h] at h1417
    · intro h; rcases h with h | h <;> simp [h] at h1417
    · intro _
      refine ⟨?_, ?_, ?_, ?_⟩
      · intro p hp
        have hn := getRefRecord_some_not_nil store varGR "macro" p hp
        apply condRecord_preserves_isSome
        apply condRecord_preserves_isSome
        apply condRecord_preserves_isSome
        simp only [hn, Bool.false_eq_true, if_false, hp]
        exact recordObject_self_isSome _ p
      · intro p hp
        have hn := getRefRecord_some_not_nil store varGR "summary_macro" p hp
        apply condRecord_preserves_isSome
        apply condRecord_preserves_isSome
        simp only [hn, Bool.false_eq_true, if_false, hp]
        exact recordObject_self_isSome _ p
      · intro p hp
        have hn := getRefRecord_some_not_nil store varGR "sp_widget" p hp
        apply condRecord_preserves_isSome
        simp only [hn, Bool.false_eq_true, if_false, hp]
        exact recordObject_self_isSome _ p
      · intro p hp
        have hn := getRefRecord_some_not_nil store varGR "macroponent" p hp
        simp only [hn, Bool.false_eq_true, if_false, hp]
        exact recordObject_self_isSome _ p
    · intro h
      have h1417x : jsStr (getF varGR "type") = "14" ∨ jsStr (getF varGR "type") = "17" := by
        simpa using h1417
      rcases h1417x with hh | hh <;> exact absurd (by simp [hh]) h
  · rw [Bool.not_eq_true] at h1417
    simp only [h1417, Bool.false_eq_true, if_false]
    by_cases h35 : (jsStr (getF varGR "type") == "3" || jsStr (getF varGR "type") == "5") = true
    · simp only [h35, if_true, captureObjectsFromGRQuery]
      refine ⟨_, rfl, ?_, ?_, ?_, ?_, ?_⟩
      · exact foldl_record_preserves_isSome _ _ _ (recordObject_self_isSome st varGR)
      · intro h; simp [h] at h35
      · intro _ c hc
        exact foldl_record_mem_isSome _ c _ hc
      · intro h; rcases h with h | h <;> simp [h] at h1417
      · intro h
        have h35x : jsStr (getF varGR "type") = "3" ∨ jsStr (getF varGR "type") = "5" := by
          simpa using h35
        rcases h35x with hh | hh <;> exact absurd (by simp [hh]) h
    · rw [Bool.not_eq_true] at h35
      simp only [h35, Bool.false_eq_true, if_false]
      by_cases h15 : (jsStr (getF varGR "type") == "15") = true
      · simp only [h15, if_true]
        refine ⟨_, rfl, ?_, ?_, ?_, ?_, ?_⟩
        · apply condRecord_preserves_isSome
          exact recordObject_self_isSome st varGR
        · intro _ p hp
          have hn := getRefRecord_some_not_nil store varGR "ui_page" p hp
          simp only [hn, Bool.false_eq_true, if_false, hp]
          exact recordObject_self_isSome _ p
        · intro h; rcases h with h | h <;> simp [h] at h35
        · intro h; rcases h with h | h <;> simp [h] at h1417
        · intro h
          have h15x : jsStr (getF varGR "type") = "15" := by simpa using h15
          exact absurd (by simp [h15x]) h
      · rw [Bool.not_eq_true] at h15
        simp only [h15, Bool.false_eq_true, if_false]
        refine ⟨_, rfl, ?_, ?_, ?_, ?_, ?_⟩
        · exact recordObject_self_isSome st varGR
        · intro h; simp [h] at h15
        · intro h; rcases h with h | h <;> simp [h] at h35
        · intro h; rcases h with h | h <;> simp [h] at h1417
        · intro _; rfl

/-- C9 witness: the dispatch theorem applied to a concrete store holding a
type-"15" variable linked to a UI page. -/
theorem c9_conditional_branch_witness :
    jsNil (some "v1") = false ∧
    grGet [⟨"item_option_new", some "v1", [("type", "15"), ("ui_page", "pg1")]⟩,
        ⟨"sys_ui_page", some "pg1", [("name", "MyPage")]⟩]
      TABLES.CATALOG_ITEM_VARIABLE (jsStr (some "v1"))
      = some ⟨"item_option_new", some "v1", [("type", "15"), ("ui_page", "pg1")]⟩ ∧
    (∃ stv, captureServiceCatalogVariable
        [⟨"item_option_new", some "v1", [("type", "15"), ("ui_page", "pg1")]⟩,
         ⟨"sys_ui_page", some "pg1", [("name", "MyPage")]⟩] (some "v1") initialState
        = Except.ok stv ∧
      (mapGet stv.capturedObjectMap
        (jsStr (⟨"item_option_new", some "v1", [("type", "15"), ("ui_page", "pg1")]⟩ : Row).sys_id)).isSome = true ∧
      (jsStr (getF ⟨"item_option_new", some "v1", [("type", "15"), ("ui_page", "pg1")]⟩ "type") = "15" →
        ∀ p, getRefRecord [⟨"item_option_new", some "v1", [("type", "15"), ("ui_page", "pg1")]⟩,
            ⟨"sys_ui_page", some "pg1", [("name", "MyPage")]⟩]
            ⟨"item_option_new", some "v1", [("type", "15"), ("ui_page", "pg1")]⟩ "ui_page" = some p →
          (mapGet stv.capturedObjectMap (jsStr p.sys_id)).isSome = true) ∧
      ((jsStr (getF ⟨"item_option_new", some "v1", [("type", "15"), ("ui_page", "pg1")]⟩ "type") = "3" ∨
        jsStr (getF ⟨"item_option_new", some "v1", [("type", "15"), ("ui_page", "pg1")]⟩ "type") = "5") →
        ∀ c ∈ queryStore [⟨"item_option_new", some "v1", [("type", "15"), ("ui_page", "pg1")]⟩,
            ⟨"sys_ui_page", some "pg1", [("name", "MyPage")]⟩]
            TABLES.CATALOG_ITEM_VARIABLE_QUESTION_CHOICE
            [Cond.eq "question" (jsStr (⟨"item_option_new", some "v1", [("type", "15"), ("ui_page", "pg1")]⟩ : Row).sys_id)],
          (mapGet stv.capturedObjectMap (jsStr c.sys_id)).isSome = true) ∧
      ((jsStr (getF ⟨"item_option_new", some "v1", [("type", "15"), ("ui_page", "pg1")]⟩ "type") = "14" ∨
        jsStr (getF ⟨"item_option_new", some "v1", [("type", "15"), ("ui_page", "pg1")]⟩ "type") = "17") →
        (∀ p, getRefRecord [⟨"item_option_new", some "v1", [("type", "15"), ("ui_page", "pg1")]⟩,
            ⟨"sys_ui_page", some "pg1", [("name", "MyPage")]⟩]
            ⟨"item_option_new", some "v1", [("type", "15"), ("ui_page", "pg1")]⟩ "macro" = some p →
          (mapGet stv.capturedObjectMap (jsStr p.sys_id)).isSome = true) ∧
        (∀ p, getRefRecord [⟨"item_option_new", some "v1", [("type", "15"), ("ui_page", "pg1")]⟩,
            ⟨"sys_ui_page", some "pg1", [("name", "MyPage")]⟩]
            ⟨"item_option_new", some "v1", [("type", "15"), ("ui_page", "pg1")]⟩ "summary_macro" = some p →
          (mapGet stv.capturedObjectMap (jsStr p.sys_id)).isSome = true) ∧
        (∀ p, getRefRecord [⟨"item_option_new", some "v1", [("type", "15"), ("ui_page", "pg1")]⟩,
            ⟨"sys_ui_page", some "pg1", [("name", "MyPage")]⟩]
            ⟨"item_option_new", some "v1", [("type", "15"), ("ui_page", "pg1")]⟩ "sp_widget" = some p →
          (mapGet stv.capturedObjectMap (jsStr p.sys_id)).isSome = true) ∧
        (∀ p, getRefRecord [⟨"item_option_new", some "v1", [("type", "15"), ("ui_page", "pg1")]⟩,
            ⟨"sys_ui_page", some "pg1", [("name", "MyPage")]⟩]
            ⟨"item_option_new", some "v1", [("type", "15"), ("ui_page", "pg1")]⟩ "macroponent" = some p →
          (mapGet stv.capturedObjectMap (jsStr p.sys_id)).isSome = true)) ∧
      (jsStr (getF ⟨"item_option_new", some "v1", [("type", "15"), ("ui_page", "pg1")]⟩ "type")
          ∉ (["3", "5", "14", "15", "17"] : List String) →
        stv = recordObject initialState
          (some ⟨"item_option_new", some "v1", [("type", "15"), ("ui_page", "pg1")]⟩))) :=
  ⟨by decide, by decide,
   c9_conditional_branch_dispatch
     [⟨"item_option_new", some "v1", [("type", "15"), ("ui_page", "pg1")]⟩,
      ⟨"sys_ui_page", some "pg1", [("name", "MyPage")]⟩]
     (some "v1") initialState
     ⟨"item_option_new", some "v1", [("type", "15"), ("ui_page", "pg1")]⟩
     (by decide) (by decide)⟩
